import Mathlib

/-!
Verification of the stacked-ensemble prediction engine of this repository
against its natural-language specification.

The embedding covers the three modules the claims cite:

* `src/services/ensemble.py` (`EnsembleModel`, namespace `Ensemble` below),
* `src/services/ensemble_lite.py` (`EnsembleLiteModel`, namespace `EnsembleLite`),
* `src/services/ml_demo.py` (`CryptoMLDemo`, namespace `MlDemo`).

Modelling conventions:

* Pandas/NumPy float cells are modelled by `PVal`: either an ordinary
  rational (`PVal.val q`), `NaN`, or a signed infinity, with the NumPy
  propagation rules for the operations the code uses.  Exact real-valued
  irrational primitives (`sqrt` inside `rolling(...).std()`, `np.log`)
  are threaded through as explicit function parameters `sqrtQ logQ : ℚ → ℚ`;
  no theorem below depends on the numeric values these parameters return,
  only on the fact that on a rational input they return a defined rational.
* Fitted scikit-learn / XGBoost / Keras models are deterministic functions
  once training has finished; each trained model handle is embedded as an
  opaque function field of the state structure (e.g. `List ℚ → Prob3`).
  Training itself (gradient boosting, SGD) is not re-derived: a training
  step takes the resulting fitted functions as parameters and the theorems
  quantify over them.
* `np.random.rand` draws on the inference path are made explicit: the
  prediction function receives the stream of draws as a `List ℚ` argument.
* Python strings are compared through their character lists, because the
  byte-position based `String` primitives do not reduce in the kernel.
-/

/-! ## String helpers (Python `in`, `startswith`, `split`) -/

/-- Python `a == b` on strings, via character lists. -/
def strEq (a b : String) : Bool := a.toList == b.toList

/-- Python `needle in hay` (substring containment) on character lists. -/
def charsContain (needle : List Char) : List Char → Bool
  | [] => needle.isEmpty
  | c :: t => needle.isPrefixOf (c :: t) || charsContain needle t

/-- Python `needle in hay` for strings. -/
def strContains (hay needle : String) : Bool := charsContain needle.toList hay.toList

/-- Python `s.startswith(p)`. -/
def strStarts (s p : String) : Bool := p.toList.isPrefixOf s.toList

/-- Python `s.split('_')` on character lists. -/
def splitUnderscoreChars : List Char → List (List Char)
  | [] => [[]]
  | c :: t =>
    if c == '_' then [] :: splitUnderscoreChars t
    else
      match splitUnderscoreChars t with
      | [] => [[c]]
      | h :: r => (c :: h) :: r

/-- Python `s.split('_')` for strings. -/
def strSplitUnderscore (s : String) : List String :=
  (splitUnderscoreChars s.toList).map List.asString

/-! ## Pandas/NumPy cell values -/

/-- One float cell of a pandas Series: NaN, ±Inf, or a finite value
(modelled as an exact rational). -/
inductive PVal where
  | nan : PVal
  | inf : PVal
  | ninf : PVal
  | val (q : ℚ) : PVal
deriving DecidableEq, Repr

namespace PVal

/-- Whether the cell is NaN (what `dropna` / `fillna` test). -/
def isNan : PVal → Bool
  | .nan => true
  | _ => false

/-- Float addition with NumPy semantics on NaN/Inf. -/
def padd : PVal → PVal → PVal
  | .nan, _ => .nan
  | _, .nan => .nan
  | .inf, .ninf => .nan
  | .ninf, .inf => .nan
  | .inf, _ => .inf
  | _, .inf => .inf
  | .ninf, _ => .ninf
  | _, .ninf => .ninf
  | .val a, .val b => .val (a + b)

/-- Float negation. -/
def pneg : PVal → PVal
  | .nan => .nan
  | .inf => .ninf
  | .ninf => .inf
  | .val a => .val (-a)

/-- Float subtraction. -/
def psub (a b : PVal) : PVal := padd a (pneg b)

/-- Float multiplication with NumPy semantics (`Inf * 0 = NaN`). -/
def pmul : PVal → PVal → PVal
  | .nan, _ => .nan
  | _, .nan => .nan
  | .inf, .inf => .inf
  | .inf, .ninf => .ninf
  | .ninf, .inf => .ninf
  | .ninf, .ninf => .inf
  | .inf, .val b => if b = 0 then .nan else if 0 < b then .inf else .ninf
  | .val a, .inf => if a = 0 then .nan else if 0 < a then .inf else .ninf
  | .ninf, .val b => if b = 0 then .nan else if 0 < b then .ninf else .inf
  | .val a, .ninf => if a = 0 then .nan else if 0 < a then .ninf else .inf
  | .val a, .val b => .val (a * b)

/-- Float division with NumPy semantics: `0/0 = NaN`, `q/0 = ±Inf` for
`q ≠ 0`, finite divided by infinite is `0`, `Inf/Inf = NaN`. -/
def pdiv : PVal → PVal → PVal
  | .nan, _ => .nan
  | _, .nan => .nan
  | .inf, .inf => .nan
  | .inf, .ninf => .nan
  | .ninf, .inf => .nan
  | .ninf, .ninf => .nan
  | .inf, .val b => if 0 ≤ b then .inf else .ninf
  | .ninf, .val b => if 0 ≤ b then .ninf else .inf
  | .val _, .inf => .val 0
  | .val _, .ninf => .val 0
  | .val a, .val b =>
    if b = 0 then (if a = 0 then .nan else if 0 < a then .inf else .ninf)
    else .val (a / b)

/-- Pandas comparison `x > 0` (False on NaN). -/
def pgtZero : PVal → Bool
  | .val q => decide (0 < q)
  | .inf => true
  | _ => false

/-- Pandas comparison `x < 0` (False on NaN). -/
def pltZero : PVal → Bool
  | .val q => decide (q < 0)
  | .ninf => true
  | _ => false

end PVal

/-! ## Series combinators (the pandas operations the pipeline uses) -/

/-- A pandas Series of float cells, indexed positionally. -/
abbrev Series := List PVal

namespace Series

open PVal

/-- Positional read; out-of-range reads are NaN (only used at in-range
indices by the combinators below). -/
def at' (s : Series) (i : ℕ) : PVal := List.getD s i .nan

/-- `s.shift(k)` for `k ≥ 0`: row `i` takes the value of row `i − k`,
the first `k` rows become NaN, length is preserved. -/
def shift (k : ℕ) (s : Series) : Series :=
  (List.range (List.length s)).map fun i => if i < k then .nan else s.at' (i - k)

/-- `s.shift(-1)`: row `i` takes the value of row `i + 1`, the last row
becomes NaN. -/
def shiftNegOne (s : Series) : Series :=
  (List.range (List.length s)).map fun i =>
    if i + 1 < List.length s then s.at' (i + 1) else .nan

/-- Elementwise combination of two equal-length Series. -/
def zip2 (f : PVal → PVal → PVal) (a b : Series) : Series := List.zipWith f a b

/-- Elementwise map. -/
def emap (f : PVal → PVal) (s : Series) : Series := List.map f s

/-- `s.diff()`: first difference, NaN at row 0. -/
def diff (s : Series) : Series :=
  (List.range (List.length s)).map fun i =>
    if i = 0 then .nan else psub (s.at' i) (s.at' (i - 1))

/-- `s.pct_change()`: `(s − s.shift(1)) / s.shift(1)`, NaN at row 0. -/
def pctChange (s : Series) : Series :=
  (List.range (List.length s)).map fun i =>
    if i = 0 then .nan else pdiv (psub (s.at' i) (s.at' (i - 1))) (s.at' (i - 1))

/-- `s.where(cond, 0)` for `cond = s > 0`: NaN compares False, so NaN
cells are replaced by 0 (exactly pandas behaviour in `_calculate_rsi`). -/
def whereGtZeroElseZero (s : Series) : Series :=
  s.emap fun x => if x.pgtZero then x else .val 0

/-- `s.where(cond, 0)` for `cond = s < 0`. -/
def whereLtZeroElseZero (s : Series) : Series :=
  s.emap fun x => if x.pltZero then x else .val 0

/-- The trailing window of width at most `w` ending at row `i`. -/
def windowAt (s : Series) (i w : ℕ) : List PVal :=
  (List.take (i + 1) s).drop (i + 1 - w)

/-- Sum of a window, NaN-propagating. -/
def psum (l : List PVal) : PVal := l.foldr padd (.val 0)

/-- Mean of a full window (all `w` cells present): NaN if any cell is NaN. -/
def meanFull (l : List PVal) : PVal :=
  if l.any isNan then .nan else pdiv (psum l) (.val (List.length l))

/-- `s.rolling(window=w).mean()` with the default `min_periods = w`:
rows with fewer than `w` observations, or whose window contains NaN,
are NaN. -/
def rollingMean (w : ℕ) (s : Series) : Series :=
  (List.range (List.length s)).map fun i =>
    if i + 1 < w then .nan else meanFull (s.windowAt i w)

/-- The rational cells of a window (what pandas keeps with
`min_periods=1`). -/
def windowVals (l : List PVal) : List ℚ :=
  l.filterMap fun x => match x with | .val q => some q | _ => none

/-- `s.rolling(window=w, min_periods=1).mean()`: mean over the non-NaN
cells of the window, NaN only when every cell is NaN. -/
def rollingMeanMin1 (w : ℕ) (s : Series) : Series :=
  (List.range (List.length s)).map fun i =>
    let vs := windowVals (s.windowAt i w)
    if vs.length = 0 then .nan else .val (vs.sum / vs.length)

/-- Sample variance (ddof = 1) of a list of rationals. -/
def sampleVar (vs : List ℚ) : ℚ :=
  let m := vs.sum / vs.length
  (vs.map fun x => (x - m) ^ 2).sum / ((vs.length : ℚ) - 1)

/-- `s.rolling(window=w).std()` (default `min_periods = w`), with the
square root abstracted as `sqrtQ`. -/
def rollingStd (sqrtQ : ℚ → ℚ) (w : ℕ) (s : Series) : Series :=
  (List.range (List.length s)).map fun i =>
    if i + 1 < w then .nan
    else if (s.windowAt i w).any isNan then .nan
    else .val (sqrtQ (sampleVar (windowVals (s.windowAt i w))))

/-- `s.rolling(window=w, min_periods=1).std()`: with a single
observation the ddof-1 variance is 0/0, hence NaN. -/
def rollingStdMin1 (sqrtQ : ℚ → ℚ) (w : ℕ) (s : Series) : Series :=
  (List.range (List.length s)).map fun i =>
    let vs := windowVals (s.windowAt i w)
    if vs.length ≤ 1 then .nan else .val (sqrtQ (sampleVar vs))

/-- `s.ewm(span=n).mean()` (adjusted weights, as pandas defaults):
row `i` is the `(1−α)^j`-weighted mean of rows `i, i−1, …, 0` with
`α = 2/(n+1)`; NaN if any cell so far is NaN (the pipeline only applies
this to the NaN-free raw price column). -/
def ewmMean (span : ℕ) (s : Series) : Series :=
  let β : ℚ := 1 - 2 / ((span : ℚ) + 1)
  (List.range (List.length s)).map fun i =>
    if (List.take (i + 1) s).any isNan then .nan
    else
      let ws := (List.range (i + 1)).map fun j => β ^ j
      let xs := (List.range (i + 1)).map fun j =>
        match s.at' (i - j) with | .val q => q | _ => 0
      .val ((List.zipWith (· * ·) ws xs).sum / ws.sum)

/-- `np.log` on a cell, with the real logarithm on positive rationals
abstracted as `logQ` (`log 0 = −Inf`, `log` of a negative is NaN). -/
def plog (logQ : ℚ → ℚ) : PVal → PVal
  | .nan => .nan
  | .inf => .inf
  | .ninf => .nan
  | .val q => if 0 < q then .val (logQ q) else if q = 0 then .ninf else .nan

/-- `s.fillna(c)`. -/
def fillna (c : ℚ) (s : Series) : Series :=
  s.emap fun x => if x.isNan then .val c else x

end Series

/-! ## The RSI-style oscillator of each module -/

namespace Ensemble

open PVal Series

/-- `EnsembleModel._calculate_rsi` (`src/services/ensemble.py` 234-241):
`delta = prices.diff(); gain = delta.where(delta > 0, 0).rolling(14).mean();
loss = (-delta.where(delta < 0, 0)).rolling(14).mean(); rs = gain / loss;
rsi = 100 - 100 / (1 + rs)`.  The ratio `gain / loss` has no epsilon and no
special case: `0/0` is NaN. -/
def calculate_rsi (prices : Series) : Series :=
  let delta := prices.diff
  let gain := rollingMean 14 (whereGtZeroElseZero delta)
  let loss := rollingMean 14 (emap pneg (whereLtZeroElseZero delta))
  let rs := zip2 pdiv gain loss
  rs.emap fun r => psub (.val 100) (pdiv (.val 100) (padd (.val 1) r))

end Ensemble

namespace EnsembleLite

open PVal Series

/-- `EnsembleLiteModel._calculate_rsi_simple` (`src/services/ensemble_lite.py`
148-159): rolling means use `min_periods=1`, the ratio is guarded as
`gain / (loss + 1e-8)`, and the result is `fillna(50)`. -/
def calculate_rsi_simple (prices : Series) : Series :=
  let delta := prices.diff
  let gain := rollingMeanMin1 14 (whereGtZeroElseZero delta)
  let loss := rollingMeanMin1 14 (emap pneg (whereLtZeroElseZero delta))
  let rs := zip2 pdiv gain (loss.emap fun l => padd l (.val (1 / 100000000)))
  let rsi := rs.emap fun r => psub (.val 100) (pdiv (.val 100) (padd (.val 1) r))
  rsi.fillna 50

end EnsembleLite

/-! ## Feature engineering of `EnsembleModel` (`src/services/ensemble.py`) -/

/-- The raw input frame the training path consumes (the columns
`prepare_training_data` relies on; the `timestamp` column is excluded
from the features and never NaN, and `target_class` is a string column
that is never NaN, so neither affects `dropna` row counts or the numeric
schema and they are left out of the numeric frame). -/
structure InputDf where
  price : Series
  volume : Series
  tech_score : Series
  social_score : Series
  fund_score : Series
  astro_score : Series
deriving DecidableEq

namespace Ensemble

open PVal Series

/-- `EnsembleModel._calculate_macd` (ensemble.py 243-249). -/
def calculate_macd (prices : Series) : Series × Series :=
  let emaFast := ewmMean 12 prices
  let emaSlow := ewmMean 26 prices
  let macd := zip2 psub emaFast emaSlow
  (macd, ewmMean 9 macd)

/-- `EnsembleModel._calculate_bollinger_bands` (ensemble.py 251-258). -/
def calculate_bollinger_bands (sqrtQ : ℚ → ℚ) (prices : Series) :
    Series × Series × Series :=
  let ma := rollingMean 20 prices
  let sd := rollingStd sqrtQ 20 prices
  let upper := zip2 padd ma (sd.emap fun x => pmul x (.val 2))
  let lower := zip2 psub ma (sd.emap fun x => pmul x (.val 2))
  let position := zip2 pdiv (zip2 psub prices lower) (zip2 psub upper lower)
  (upper, lower, position)

/-- `df[pillar_cols].mean(axis=1)` (pandas skips NaN cells in a row). -/
def rowMean4 (a b c d : Series) : Series :=
  (List.range (List.length a)).map fun i =>
    let vs := windowVals [a.at' i, b.at' i, c.at' i, d.at' i]
    if vs.length = 0 then .nan else .val (vs.sum / vs.length)

/-- `df[pillar_cols].var(axis=1)` (sample variance across the row,
NaN cells skipped, NaN when fewer than two values). -/
def rowVar4 (a b c d : Series) : Series :=
  (List.range (List.length a)).map fun i =>
    let vs := windowVals [a.at' i, b.at' i, c.at' i, d.at' i]
    if vs.length ≤ 1 then .nan else .val (sampleVar vs)

/-- The four pillar columns, in the loop order of the source. -/
def pillarSeries (df : InputDf) : List (String × Series) :=
  [("tech_score", df.tech_score), ("social_score", df.social_score),
   ("fund_score", df.fund_score), ("astro_score", df.astro_score)]

/-- `EnsembleModel.engineer_features` (ensemble.py 171-232): the engineered
frame as an ordered list of named columns, in Python dict insertion order.
`sqrtQ` stands for the real square root inside `rolling(...).std()` and
`logQ` for `np.log` on positive rationals; `dropna` happens afterwards in
`engineeredRows`. -/
def engineer_features (sqrtQ logQ : ℚ → ℚ) (df : InputDf) :
    List (String × Series) :=
  let price := df.price
  let priceReturns := price.pctChange
  let macdPair := calculate_macd price
  let bb := calculate_bollinger_bands sqrtQ price
  let volumeMa := rollingMean 10 df.volume
  [("price", price), ("volume", df.volume)] ++
  pillarSeries df ++
  [("price_returns", priceReturns),
   ("price_log_returns", (zip2 pdiv price (shift 1 price)).emap (plog logQ)),
   ("price_volatility", rollingStd sqrtQ 10 priceReturns)] ++
  (([5, 10, 20] : List ℕ).flatMap fun w =>
    let ma := rollingMean w price
    [(("price_ma_" ++ toString w : String), ma),
     (("price_ma_" ++ toString w ++ "_ratio" : String), zip2 pdiv price ma)]) ++
  [("rsi", calculate_rsi price),
   ("macd", macdPair.1), ("macd_signal", macdPair.2),
   ("bb_upper", bb.1), ("bb_lower", bb.2.1), ("bb_position", bb.2.2),
   ("volume_ma", volumeMa),
   ("volume_ratio", zip2 pdiv df.volume volumeMa),
   ("price_volume", zip2 pmul price df.volume)] ++
  ((pillarSeries df).flatMap fun pc =>
    [((pc.1 ++ "_ma_5" : String), rollingMean 5 pc.2),
     ((pc.1 ++ "_momentum" : String), pc.2.diff),
     ((pc.1 ++ "_volatility" : String), rollingStd sqrtQ 10 pc.2)]) ++
  [("pillar_composite",
      rowMean4 df.tech_score df.social_score df.fund_score df.astro_score),
   ("pillar_variance",
      rowVar4 df.tech_score df.social_score df.fund_score df.astro_score),
   ("tech_social_interaction",
      (zip2 pmul df.tech_score df.social_score).emap fun x =>
        pdiv x (.val 100))] ++
  (([1, 3, 6, 12] : List ℕ).flatMap fun lag =>
    (("price_lag_" ++ toString lag : String), shift lag price) ::
    (pillarSeries df).map fun pc =>
      ((pc.1 ++ "_lag_" ++ toString lag : String), shift lag pc.2)) ++
  [("next_price", price.shiftNegOne),
   ("price_change", zip2 pdiv (psub' price) price)]
where
  /-- `(next_price − price)` as a Series helper. -/
  psub' (price : Series) : Series := zip2 psub price.shiftNegOne price

/-- A row survives `data.dropna()` iff no numeric column is NaN there. -/
def rowIsNanFree (cols : List (String × Series)) (i : ℕ) : Bool :=
  cols.all fun c => !(Series.at' c.2 i).isNan

/-- The indices of the rows `dropna` keeps, in order. -/
def survivingRows (cols : List (String × Series)) (n : ℕ) : List ℕ :=
  (List.range n).filter (rowIsNanFree cols)

/-- The number of rows left after feature engineering and `dropna` — the
`len(data)` that `prepare_training_data` checks against 50. -/
def engineeredRowCount (sqrtQ logQ : ℚ → ℚ) (df : InputDf) : ℕ :=
  (survivingRows (engineer_features sqrtQ logQ df) df.price.length).length

/-- The columns `prepare_training_data` excludes from the schema
(ensemble.py 271). -/
def exclude_cols : List String :=
  ["timestamp", "target_class", "next_price", "price_change",
   "predicted_category"]

/-- The frozen feature schema: every engineered column except the excluded
ones (ensemble.py 272).  The names do not depend on the data. -/
def featureColumnsOf (cols : List (String × Series)) : List String :=
  (cols.map Prod.fst).filter fun c => !(exclude_cols.any (strEq c))

/-- `ValueError(f"Insufficient data for training: {n} samples")` carrying
the reported row count. -/
inductive TrainDataError where
  | insufficientData (count : ℕ) : TrainDataError
deriving DecidableEq, Repr

/-- What `prepare_training_data` hands to the trainers, as far as the
claims are concerned: the frozen schema and the chronological split
boundary `int(len(data) * 0.8)` (for realistic sizes the float product
truncates to `4n/5`). -/
structure PreparedData where
  feature_columns : List String
  usable_rows : ℕ
  split_idx : ℕ
deriving DecidableEq, Repr

/-- `EnsembleModel.prepare_training_data` (ensemble.py 260-299): engineer
features, fail with the insufficiency error (reporting `len(data)`) when
fewer than 50 rows survive `dropna`, otherwise freeze the schema and cut
the chronological 80/20 split. -/
def prepare_training_data (sqrtQ logQ : ℚ → ℚ) (df : InputDf) :
    Except TrainDataError PreparedData :=
  let data := engineer_features sqrtQ logQ df
  let n := (survivingRows data df.price.length).length
  if n < 50 then .error (.insufficientData n)
  else .ok { feature_columns := featureColumnsOf data
             usable_rows := n
             split_idx := 4 * n / 5 }

end Ensemble

/-! ## Inference-time feature reconstruction -/

/-- A value of the prediction-request dictionary: a numeric entry, or a
non-numeric one (anything whose assignment into the float vector — or
`float(...)` conversion — raises in Python). -/
inductive FVal where
  | num (q : ℚ) : FVal
  | nonNum : FVal
deriving DecidableEq, Repr

/-- A prediction-request dictionary (`features: dict`). -/
abbrev FeatureDict := List (String × FVal)

/-- Python `features[k]` as an optional lookup. -/
def dictGet (fs : FeatureDict) (k : String) : Option FVal :=
  (fs.find? fun p => strEq p.1 k).map Prod.snd

/-- Python `k in features`. -/
def dictHas (fs : FeatureDict) (k : String) : Bool :=
  (fs.find? fun p => strEq p.1 k).isSome

/-- Assigning a dictionary value into a float vector: numeric values land
verbatim, a missing key contributes nothing here (callers guard with
`dictHas`), a non-numeric value raises (`Except.error`). -/
def assignNum : Option FVal → Except Unit ℚ
  | some (.num q) => .ok q
  | some .nonNum => .error ()
  | none => .ok 0

namespace Ensemble

/-- `base_pillar = col.split('_')[0] + '_' + col.split('_')[1]`
(ensemble.py 577). -/
def basePillar (col : String) : String :=
  let parts := strSplitUnderscore col
  parts.getD 0 "" ++ "_" ++ parts.getD 1 ""

/-- The pillar-pattern test of ensemble.py 575:
`any(pillar in col for pillar in ['tech_score', ...])`. -/
def pillarIn (col : String) : Bool :=
  ["tech_score", "social_score", "fund_score", "astro_score"].any
    fun p => strContains col p

/-- Python `features.get(k, 50)` followed by arithmetic use: a missing
key defaults to 50, a non-numeric value raises. -/
def pillarGet50 (fs : FeatureDict) (k : String) : Except Unit ℚ :=
  match dictGet fs k with
  | some (.num q) => .ok q
  | some .nonNum => .error ()
  | none => .ok 50

/-- `np.mean([features.get(f'{p}_score', 50) for p in [...]])`
(ensemble.py 584-586): missing pillars default to 50, a non-numeric
pillar value raises. -/
def pillarComposite (fs : FeatureDict) : Except Unit ℚ := do
  let t ← pillarGet50 fs "tech_score"
  let s ← pillarGet50 fs "social_score"
  let f ← pillarGet50 fs "fund_score"
  let a ← pillarGet50 fs "astro_score"
  .ok ((t + s + f + a) / 4)

/-- One cell of `EnsembleModel._create_feature_vector` (ensemble.py
558-588): the vector starts as zeros and each schema column is resolved
independently by the branch chain of the source. -/
def featureEntry (fs : FeatureDict) (col : String) : Except Unit ℚ :=
  if dictHas fs col then assignNum (dictGet fs col)
  else if strStarts col "price" && dictHas fs "price" then
    (if strEq col "price" then assignNum (dictGet fs "price")
     else if strStarts col "price_ma" || strStarts col "price_lag" then
       assignNum (dictGet fs "price")
     else .ok 0)
  else if pillarIn col then
    (match dictGet fs (basePillar col) with
     | some (.num q) => .ok q
     | some .nonNum => .error ()
     | none => .ok 0)
  else if strEq col "volume" && dictHas fs "volume" then
    assignNum (dictGet fs "volume")
  else if strEq col "pillar_composite" then pillarComposite fs
  else .ok 0

/-- `EnsembleModel._create_feature_vector`: the reconstructed dense vector
over the frozen schema (an `Except` because assigning a non-numeric
dictionary value raises inside the enclosing `try`). -/
def create_feature_vector (cols : List String) (fs : FeatureDict) :
    Except Unit (List ℚ) :=
  match cols with
  | [] => .ok []
  | c :: t => do
    let x ← featureEntry fs c
    let r ← create_feature_vector t fs
    .ok (x :: r)

end Ensemble

namespace EnsembleLite

/-- One cell of `EnsembleLiteModel._create_feature_vector`
(ensemble_lite.py 299-330). -/
def featureEntry (fs : FeatureDict) (col : String) : Except Unit ℚ :=
  if dictHas fs col then assignNum (dictGet fs col)
  else if strEq col "price" && dictHas fs "price" then
    assignNum (dictGet fs "price")
  else if strEq col "volume" && dictHas fs "volume" then
    assignNum (dictGet fs "volume")
  else if strContains col "tech_score" && dictHas fs "tech_score" then
    assignNum (dictGet fs "tech_score")
  else if strContains col "social_score" && dictHas fs "social_score" then
    assignNum (dictGet fs "social_score")
  else if strContains col "fund_score" && dictHas fs "fund_score" then
    assignNum (dictGet fs "fund_score")
  else if strContains col "astro_score" && dictHas fs "astro_score" then
    assignNum (dictGet fs "astro_score")
  else if strEq col "pillar_mean" then Ensemble.pillarComposite fs
  else if strEq col "tech_social_product" then do
    let t ← Ensemble.pillarGet50 fs "tech_score"
    let s ← Ensemble.pillarGet50 fs "social_score"
    .ok (t * s / 100)
  else .ok 0

/-- `EnsembleLiteModel._create_feature_vector`. -/
def create_feature_vector (cols : List String) (fs : FeatureDict) :
    Except Unit (List ℚ) :=
  match cols with
  | [] => .ok []
  | c :: t => do
    let x ← featureEntry fs c
    let r ← create_feature_vector t fs
    .ok (x :: r)

end EnsembleLite

namespace MlDemo

/-- The numeric dictionary `CryptoMLDemo.predict` consumes (its vector
builder applies `float(...)` to present values; the claims touching it
only involve numeric dictionaries). -/
abbrev QDict := List (String × ℚ)

/-- Python `features.get(k, d)` for the numeric dictionary. -/
def qGetD (fs : QDict) (k : String) (d : ℚ) : ℚ :=
  match fs.find? fun p => strEq p.1 k with
  | some p => p.2
  | none => d

/-- Python `k in features`. -/
def qHas (fs : QDict) (k : String) : Bool :=
  (fs.find? fun p => strEq p.1 k).isSome

/-- One cell of the defaulting chain of `CryptoMLDemo.predict`
(ml_demo.py 231-253): name-pattern defaults for missing columns. -/
def featureEntry (fs : QDict) (col : String) : ℚ :=
  if qHas fs col then qGetD fs col 0
  else if strContains col "price" then qGetD fs "price" (14667 / 100)
  else if strContains col "volume" then qGetD fs "volume" 23000000
  else if strContains col "tech" then qGetD fs "tech_score" 35
  else if strContains col "social" then qGetD fs "social_score" 35
  else if strContains col "fund" then qGetD fs "fund_score" 35
  else if strContains col "astro" then qGetD fs "astro_score" 50
  else if strContains col "rsi" then 50
  else 0

/-- The dense vector `CryptoMLDemo.predict` builds over its schema. -/
def featureVector (cols : List String) (fs : QDict) : List ℚ :=
  cols.map (featureEntry fs)

/-- The feature columns of `CryptoMLDemo` (ml_demo.py 97-130 insertion
order; `feature_columns` is every generated column except `target`). -/
def demoColumns : List String :=
  ["price", "volume", "tech_score", "social_score", "fund_score",
   "astro_score", "price_sma_5", "price_sma_20", "price_volatility",
   "price_returns", "rsi_approx", "volume_sma", "price_volume_trend",
   "tech_score_momentum", "social_score_momentum", "fund_score_momentum",
   "astro_score_momentum", "price_lag_1", "price_lag_3", "tech_lag_1",
   "tech_lag_3", "tech_social_product", "pillar_mean", "pillar_std",
   "volume_ratio", "price_ratio_sma", "price_momentum", "tech_score_sma",
   "social_score_sma", "fund_score_sma", "astro_score_sma"]

end MlDemo

/-! ## Class-probability vectors and derived scores -/

/-- A 3-class probability row (`predict_proba` output for one sample).
For `EnsembleModel` the label encoder sorts the string classes, so index
0 = BEARISH, 1 = BULLISH, 2 = NEUTRAL; for `EnsembleLiteModel` the integer
targets give index 0 = BEARISH, 1 = NEUTRAL, 2 = BULLISH. -/
structure Prob3 where
  p0 : ℚ
  p1 : ℚ
  p2 : ℚ
deriving DecidableEq, Repr

namespace Prob3

/-- `np.max(probs)`. -/
def maxP (d : Prob3) : ℚ := max d.p0 (max d.p1 d.p2)

/-- `np.argmax(probs)` (first index attaining the maximum). -/
def argmax (d : Prob3) : ℕ :=
  if d.p1 ≤ d.p0 ∧ d.p2 ≤ d.p0 then 0 else if d.p2 ≤ d.p1 then 1 else 2

/-- Indexing a probability row. -/
def probAt (d : Prob3) : ℕ → ℚ
  | 0 => d.p0
  | 1 => d.p1
  | _ => d.p2

/-- The row is a probability distribution. -/
def IsDist (d : Prob3) : Prop :=
  0 ≤ d.p0 ∧ 0 ≤ d.p1 ∧ 0 ≤ d.p2 ∧ d.p0 + d.p1 + d.p2 = 1

instance (d : Prob3) : Decidable d.IsDist := by
  unfold IsDist; infer_instance

end Prob3

/-- The typed error of the prediction entry points: `predict` before
`train` raises `ValueError("... not trained ...")`. -/
inductive PredictError where
  | notTrained : PredictError
deriving DecidableEq, Repr

namespace Ensemble

/-- The scalar the full model returns (ensemble.py 536-548): confidence is
the winning class probability; BULLISH maps to `+confidence`, BEARISH to
`−confidence`, NEUTRAL to `0` (classes alphabetical: 0 = BEARISH,
1 = BULLISH, 2 = NEUTRAL). -/
def directionalScore (ep : Prob3) : ℚ :=
  let idx := ep.argmax
  let conf := ep.probAt idx
  if idx = 1 then conf else if idx = 0 then -conf else 0

/-- The in-memory state of an `EnsembleModel` instance: the trained flag,
the frozen schema, and the fitted model handles (each an opaque function
once fitted, `none` while unfitted). -/
structure EnsembleState where
  is_trained : Bool
  feature_columns : List String
  feature_scaler : List ℚ → List ℚ
  xgb_model : Option (List ℚ → Prob3)
  lstm_model : Option (List ℚ → Prob3)
  keras_available : Bool
  meta_learner : Option (Prob3 × Prob3 → Prob3)
  sequence_length : ℕ

/-- `EnsembleModel.__init__` (ensemble.py 53-62), as far as the lifecycle
state is concerned. -/
def initState (keras : Bool) : EnsembleState :=
  { is_trained := false
    feature_columns := []
    feature_scaler := id
    xgb_model := none
    lstm_model := none
    keras_available := keras
    meta_learner := none
    sequence_length := 24 }

/-- `(seq - seq.mean()) / (seq.std() + 1e-8)` with `np.std` (ddof 0)
abstracted through `sqrtQ`. -/
def standardize (sqrtQ : ℚ → ℚ) (xs : List ℚ) : List ℚ :=
  let m := xs.sum / xs.length
  let sd := sqrtQ ((xs.map fun x => (x - m) ^ 2).sum / xs.length)
  xs.map fun x => (x - m) / (sd + 1 / 100000000)

/-- The LSTM input block of `predict_ensemble` (ensemble.py 512-521):
use the last `sequence_length` prices of a long-enough supplied history,
otherwise a constant sequence at `features.get('price', 150.0)`; a
non-numeric price raises inside the `try`. -/
def lstmInputE (sqrtQ : ℚ → ℚ) (st : EnsembleState) (fs : FeatureDict)
    (priceHistory : Option (List ℚ)) : Except Unit (List ℚ) :=
  match priceHistory with
  | some h =>
    if st.sequence_length ≤ h.length then
      .ok (standardize sqrtQ (h.drop (h.length - st.sequence_length)))
    else constPath sqrtQ st fs
  | none => constPath sqrtQ st fs
where
  /-- The `np.full((1, seq), current_price)` branch. -/
  constPath (sqrtQ : ℚ → ℚ) (st : EnsembleState) (fs : FeatureDict) :
      Except Unit (List ℚ) :=
    match dictGet fs "price" with
    | some .nonNum => .error ()
    | some (.num p) => .ok (standardize sqrtQ (List.replicate st.sequence_length p))
    | none => .ok (standardize sqrtQ (List.replicate st.sequence_length 150))

/-- `lstm_pred = np.random.rand(1, 3); lstm_pred / lstm_pred.sum()`
(ensemble.py 527-530), with the three uniform draws supplied explicitly.
(Rational division by a zero sum gives 0 here; NumPy would give NaN on an
all-zero draw, an event the concrete theorems below avoid.) -/
def normalize3 (a b c : ℚ) : Prob3 :=
  let s := a + b + c
  ⟨a / s, b / s, c / s⟩

/-- `EnsembleModel.predict_ensemble` (ensemble.py 489-556).  The whole
inference body sits in a `try` whose `except` clause returns the neutral
`0.0`; the only error surfaced to the caller is the untrained check.
`rng` is the stream of `np.random.rand` draws consumed if the LSTM
fallback path is taken. -/
def predict_ensemble (sqrtQ : ℚ → ℚ) (st : EnsembleState) (fs : FeatureDict)
    (priceHistory : Option (List ℚ)) (rng : List ℚ) :
    Except PredictError ℚ :=
  if st.is_trained then
    match create_feature_vector st.feature_columns fs with
    | .error _ => .ok 0
    | .ok v =>
      match st.xgb_model, st.meta_learner, lstmInputE sqrtQ st fs priceHistory with
      | some xgb, some meta, .ok lstmIn =>
        let scaled := st.feature_scaler v
        let xp := xgb scaled
        let lp :=
          match st.lstm_model, st.keras_available with
          | some m, true => m lstmIn
          | _, _ => normalize3 (rng.getD 0 0) (rng.getD 1 0) (rng.getD 2 0)
        .ok (directionalScore (meta (xp, lp)))
      | _, _, _ => .ok 0
  else .error .notTrained

end Ensemble

namespace EnsembleLite

/-- The scalar the lite model returns (ensemble_lite.py 285-293):
`(probs[2] - probs[0]) * np.max(probs)` with 0 = BEARISH, 1 = NEUTRAL,
2 = BULLISH. -/
def directionalScore (ep : Prob3) : ℚ := (ep.p2 - ep.p0) * ep.maxP

/-- The in-memory state of an `EnsembleLiteModel` instance. -/
structure LiteState where
  is_trained : Bool
  feature_columns : List String
  feature_scaler : List ℚ → List ℚ
  xgb_model : Option (List ℚ → Prob3)
  nn_model : Option (List ℚ → Prob3)
  meta_learner : Option (Prob3 × Prob3 → Prob3)

/-- `EnsembleLiteModel.__init__` (ensemble_lite.py 30-37). -/
def initState : LiteState :=
  { is_trained := false
    feature_columns := []
    feature_scaler := id
    xgb_model := none
    nn_model := none
    meta_learner := none }

/-- `EnsembleLiteModel.predict_ensemble` (ensemble_lite.py 265-297): same
try/except shape as the full model, no randomness anywhere. -/
def predict_ensemble (st : LiteState) (fs : FeatureDict) :
    Except PredictError ℚ :=
  if st.is_trained then
    match create_feature_vector st.feature_columns fs with
    | .error _ => .ok 0
    | .ok v =>
      match st.xgb_model, st.nn_model, st.meta_learner with
      | some xgb, some nn, some meta =>
        let scaled := st.feature_scaler v
        .ok (directionalScore (meta (xgb scaled, nn scaled)))
      | _, _, _ => .ok 0
  else .error .notTrained

end EnsembleLite

namespace MlDemo

/-- The fitted artifacts one `CryptoMLDemo.train_ensemble` run produces:
the scaler, the two base learners' class-1 probabilities, the
meta-learner's class-1 probability, and the schema of the generated
training frame. -/
structure DemoFits where
  scaler : List ℚ → List ℚ
  xgbP : List ℚ → ℚ
  rfP : List ℚ → ℚ
  metaP : ℚ × ℚ → ℚ
  columns : List String

/-- The in-memory state of a `CryptoMLDemo` instance. -/
structure DemoState where
  is_trained : Bool
  feature_columns : List String
  models : Option DemoFits

/-- `CryptoMLDemo.__init__` (ml_demo.py 27-31). -/
def initState : DemoState :=
  { is_trained := false, feature_columns := [], models := none }

/-- The training report dictionary (ml_demo.py 213-221). -/
structure DemoTrainReport where
  success : Bool
deriving DecidableEq, Repr

/-- `CryptoMLDemo.train_ensemble` (ml_demo.py 142-221): generates its own
data, fits, stores the fitted models, sets `is_trained = True` and reports
success; the fitting itself is abstracted as the `fit` parameter. -/
def train_ensemble (fit : DemoFits) (st : DemoState) :
    DemoState × DemoTrainReport :=
  (({ st with is_trained := true
              feature_columns := fit.columns
              models := some fit } : DemoState),
   { success := true })

/-- The prediction dictionary `CryptoMLDemo.predict` returns
(ml_demo.py 266-280). -/
structure DemoPrediction where
  success : Bool
  ensemble_prediction : ℚ
  prediction_class : String
  confidence : ℚ
deriving DecidableEq, Repr

/-- `CryptoMLDemo.predict` (ml_demo.py 223-280): if the instance is
untrained it silently calls `train_ensemble` first (`fit` abstracts that
run's fitted output), then reconstructs the vector with name-pattern
defaults and returns a success dictionary with
`confidence = abs(final_pred - 0.5) * 2`.  The `none` model row is
unreachable from reachable states (training always stores models). -/
def predict (fit : DemoFits) (st : DemoState) (fs : QDict) :
    DemoState × DemoPrediction :=
  let st1 := if st.is_trained then st else (train_ensemble fit st).1
  match st1.models with
  | some f =>
    let xs := f.scaler (featureVector st1.feature_columns fs)
    let fp := f.metaP (f.xgbP xs, f.rfP xs)
    (st1, { success := true
            ensemble_prediction := fp
            prediction_class := if 1 / 2 < fp then "BULLISH" else "BEARISH"
            confidence := |fp - 1 / 2| * 2 })
  | none =>
    (st1, { success := true, ensemble_prediction := 0
            prediction_class := "BEARISH", confidence := 0 })

end MlDemo

/-! ## Train/held-out splits -/

namespace Ensemble

/-- The chronological split of `prepare_training_data` (ensemble.py
287-291): `split_idx = int(len(data) * 0.8)`; the first block trains, the
trailing block is held out, nothing is shuffled. -/
def chronoSplit {α : Type} (xs : List α) : List α × List α :=
  (xs.take (4 * xs.length / 5), xs.drop (4 * xs.length / 5))

end Ensemble

namespace EnsembleLite

/-- The identical chronological split of ensemble_lite.py 178-181. -/
def chronoSplit {α : Type} (xs : List α) : List α × List α :=
  (xs.take (4 * xs.length / 5), xs.drop (4 * xs.length / 5))

end EnsembleLite

namespace MlDemo

/-- `train_test_split(X, y, test_size=0.2, random_state=42)`
(ml_demo.py 157).  scikit-learn's default `shuffle=True` draws a random
permutation of the row indices from the seeded RNG and takes the first
`n_test` shuffled rows as the held-out set and the rest as training rows;
the permutation itself is produced by NumPy's Mersenne Twister, embedded
here as the explicit `perm` argument. -/
def train_test_split (perm : List ℕ) (nTest : ℕ) (xs : List ℚ) :
    List ℚ × List ℚ :=
  let shuffled := perm.map fun i => xs.getD i 0
  (shuffled.drop nTest, shuffled.take nTest)

end MlDemo

/-- The chronological-integrity check of the spec: every held-out
observation is strictly later than every training observation. -/
def heldOutStrictlyLater (train test : List ℚ) : Bool :=
  test.all fun a => train.all fun b => decide (b < a)

/-! ## Lite training (synthetic substitution) -/

namespace EnsembleLite

/-- Row count of a raw frame. -/
def dfLen (df : InputDf) : ℕ := df.price.length

/-- The data-selection head of `EnsembleLiteModel.train_ensemble`
(ensemble_lite.py 192-195): a missing or too-short frame is silently
replaced by `create_synthetic_training_data(300)` (whose seeded NumPy
generator is abstracted as the `synth` argument). -/
def selectTrainingData (synth : InputDf) (df : Option InputDf) : InputDf :=
  match df with
  | none => synth
  | some d => if dfLen d < 50 then synth else d

/-- The fitted artifacts one lite training run produces. -/
structure LiteFits where
  feature_columns : List String
  scaler : List ℚ → List ℚ
  xgb : List ℚ → Prob3
  nn : List ℚ → Prob3
  meta : Prob3 × Prob3 → Prob3

/-- The success dictionary of `EnsembleLiteModel.train_ensemble`
(ensemble_lite.py 255-263).  `training_samples = len(X_train)` is 80% of
the selected frame's rows (the lite pipeline fills NaNs instead of
dropping rows, so feature engineering preserves the row count). -/
structure LiteTrainReport where
  success : Bool
  training_samples : ℕ
deriving DecidableEq, Repr

/-- `EnsembleLiteModel.train_ensemble` (ensemble_lite.py 186-263): select
(possibly substitute) the data, fit everything (abstracted by `fits`),
mark the instance trained and report success. -/
def train_ensemble (synth : InputDf) (fits : LiteFits) (st : LiteState)
    (df : Option InputDf) : LiteState × LiteTrainReport :=
  let data := selectTrainingData synth df
  (({ st with is_trained := true
              feature_columns := fits.feature_columns
              xgb_model := some fits.xgb
              nn_model := some fits.nn
              meta_learner := some fits.meta } : LiteState),
   { success := true, training_samples := 4 * dfLen data / 5 })

end EnsembleLite

/-! ## Lifecycle state machines -/

namespace Ensemble

/-- The fitted artifacts one successful full training run produces. -/
structure FullFits where
  feature_columns : List String
  scaler : List ℚ → List ℚ
  xgb : List ℚ → Prob3
  lstm : Option (List ℚ → Prob3)
  meta : Prob3 × Prob3 → Prob3

/-- How far one `train_ensemble` call got (ensemble.py 448-487):
`prepFailed` – `prepare_training_data` raised before touching the schema;
`fitFailed` – a fit raised after line 272 stored the schema;
`completed` – the run reached past meta-learner fitting, the only point
that sets `is_trained = True` (line 470). -/
inductive TrainOutcome where
  | prepFailed (e : TrainDataError) : TrainOutcome
  | fitFailed (cols : List String) : TrainOutcome
  | completed (f : FullFits) : TrainOutcome

/-- The state effect of one `train_ensemble` call. -/
def train_ensemble_step (st : EnsembleState) (o : TrainOutcome) :
    EnsembleState :=
  match o with
  | .prepFailed _ => st
  | .fitFailed cols => { st with feature_columns := cols }
  | .completed f =>
    { st with is_trained := true
              feature_columns := f.feature_columns
              feature_scaler := f.scaler
              xgb_model := some f.xgb
              lstm_model := f.lstm
              meta_learner := some f.meta }

/-- The operations a caller can perform on an `EnsembleModel` instance. -/
inductive MLOp where
  | trainOp (o : TrainOutcome) : MLOp
  | predictOp (sqrtQ : ℚ → ℚ) (fs : FeatureDict) (ph : Option (List ℚ))
      (rng : List ℚ) : MLOp
  | importanceOp (topK : ℕ) : MLOp

/-- The state after one operation: `predict_ensemble` and
`get_feature_importance` only read the state. -/
def lifecycleStep (st : EnsembleState) (op : MLOp) : EnsembleState :=
  match op with
  | .trainOp o => train_ensemble_step st o
  | .predictOp _ _ _ _ => st
  | .importanceOp _ => st

/-- Whether the operation is a training run that completed through
meta-learner fitting. -/
def completesTraining : MLOp → Prop
  | .trainOp (.completed _) => True
  | _ => False

end Ensemble

namespace EnsembleLite

/-- How far one lite `train_ensemble` call got: any raise inside the
fits leaves the flag untouched; completion stores the models and sets
the flag (ensemble_lite.py 244). -/
inductive TrainOutcome where
  | fitFailed : TrainOutcome
  | completed (synth : InputDf) (df : Option InputDf) (f : LiteFits) :
      TrainOutcome

/-- The operations a caller can perform on an `EnsembleLiteModel`. -/
inductive LiteOp where
  | trainOp (o : TrainOutcome) : LiteOp
  | predictOp (fs : FeatureDict) : LiteOp
  | importanceOp (topK : ℕ) : LiteOp

/-- The state after one operation. -/
def lifecycleStep (st : LiteState) (op : LiteOp) : LiteState :=
  match op with
  | .trainOp .fitFailed => st
  | .trainOp (.completed synth df f) => (train_ensemble synth f st df).1
  | .predictOp _ => st
  | .importanceOp _ => st

/-- Whether the operation is a completed training run. -/
def completesTraining : LiteOp → Prop
  | .trainOp (.completed _ _ _) => True
  | _ => False

end EnsembleLite

namespace MlDemo

/-- The operations a caller can perform on a `CryptoMLDemo` instance.
`predictOp` carries the fitted artifacts of the training run it triggers
if the instance is still untrained. -/
inductive DemoOp where
  | trainOp (fit : DemoFits) : DemoOp
  | predictOp (fit : DemoFits) (fs : QDict) : DemoOp
  | importanceOp : DemoOp

/-- The state after one operation: demo `predict` mutates the state when
it auto-trains. -/
def lifecycleStep (st : DemoState) (op : DemoOp) : DemoState :=
  match op with
  | .trainOp f => (train_ensemble f st).1
  | .predictOp f fs => (predict f st fs).1
  | .importanceOp => st

/-- Whether the operation runs `train_ensemble` to completion from the
given state: an explicit train always does, and a predict does exactly
when the instance was untrained (ml_demo.py 227-229). -/
def runsTraining (st : DemoState) : DemoOp → Prop
  | .trainOp _ => True
  | .predictOp _ _ => st.is_trained = false
  | .importanceOp => False

end MlDemo

/-! ## The derived score of the specification (for the refinement
comparison of claim C6) -/

/-- Modelled from the spec's words (section 4.3): "score = (P(BULLISH) −
P(BEARISH)) × max(P)".  This is the specification-side formula, kept
separate from the code-side `Ensemble.directionalScore` and
`EnsembleLite.directionalScore` so the two can be compared. -/
def specDerivedScore (pBullish pBearish maxAll : ℚ) : ℚ :=
  (pBullish - pBearish) * maxAll

/-! ## Concrete instances used by witnesses and counterexamples -/

/-- A flat 20-observation price series (every price 150): all deltas are
0, so the rolling gains and losses are both 0. -/
def flat20 : Series := List.replicate 20 (PVal.val 150)

/-- A strictly increasing 20-observation price series. -/
def up20 : Series := (List.range 20).map fun i => PVal.val (100 + i)

/-- A concrete stand-in for the abstract square root (theorems never
depend on its values). -/
def sq0 : ℚ → ℚ := fun _ => 0

/-- A concrete stand-in for the abstract logarithm. -/
def lg0 : ℚ → ℚ := fun _ => 0

/-- A tiny 4-row raw frame: far too short, every window is incomplete. -/
def tinyDf : InputDf :=
  { price := (List.range 4).map fun i => PVal.val (100 + i)
    volume := List.replicate 4 (PVal.val 1000)
    tech_score := List.replicate 4 (PVal.val 50)
    social_score := List.replicate 4 (PVal.val 30)
    fund_score := List.replicate 4 (PVal.val 35)
    astro_score := List.replicate 4 (PVal.val 60) }

/-- A 10-row raw frame (fewer than the 50-row minimum). -/
def tenDf : InputDf :=
  { price := (List.range 10).map fun i => PVal.val (100 + i)
    volume := List.replicate 10 (PVal.val 1000)
    tech_score := List.replicate 10 (PVal.val 50)
    social_score := List.replicate 10 (PVal.val 30)
    fund_score := List.replicate 10 (PVal.val 35)
    astro_score := List.replicate 10 (PVal.val 60) }

/-- A stand-in for `create_synthetic_training_data(300)` (the seeded NumPy
generator itself is not embeddable; only its row count and its being a
different frame from the caller's input matter to the claims). -/
def synth300 : InputDf :=
  { price := List.replicate 300 (PVal.val 145)
    volume := List.replicate 300 (PVal.val 20000000)
    tech_score := List.replicate 300 (PVal.val 50)
    social_score := List.replicate 300 (PVal.val 30)
    fund_score := List.replicate 300 (PVal.val 35)
    astro_score := List.replicate 300 (PVal.val 60) }

/-- The frozen schema of an `EnsembleModel` trained on the standard
six-column raw frame (the engineered column names do not depend on the
data). -/
def ensembleSchema : List String :=
  Ensemble.featureColumnsOf (Ensemble.engineer_features sq0 lg0 tinyDf)

/-- The partial-input scenario of the spec:
`{price: 150.0, tech_score: 80}`. -/
def scenarioDict : FeatureDict :=
  [("price", FVal.num 150), ("tech_score", FVal.num 80)]

/-- The same scenario for `CryptoMLDemo.predict` (numeric dictionary). -/
def demoScenarioDict : MlDemo.QDict := [("price", 150), ("tech_score", 80)]

/-- A dictionary whose `price` value is non-numeric: assigning it into the
float feature vector raises inside the `try` of `predict_ensemble`. -/
def badDict : FeatureDict := [("price", FVal.nonNum)]

/-- A single-key numeric dictionary. -/
def priceDict : FeatureDict := [("price", FVal.num 150)]

/-- A trained `EnsembleModel` whose fitted handles are constant functions;
schema is the single column `price`. -/
def stConst : Ensemble.EnsembleState :=
  { is_trained := true
    feature_columns := ["price"]
    feature_scaler := id
    xgb_model := some fun _ => ⟨1 / 3, 1 / 3, 1 / 3⟩
    lstm_model := some fun _ => ⟨1 / 3, 1 / 3, 1 / 3⟩
    keras_available := true
    meta_learner := some fun _ => ⟨3 / 10, 2 / 5, 3 / 10⟩
    sequence_length := 24 }

/-- A trained `EnsembleModel` without the optional sequence learner
(`lstm_model is None`, Keras absent), whose meta-learner weights the LSTM
slot of its stacked input (the fallback feeds `np.random.rand` draws into
that slot). -/
def stNoLstm : Ensemble.EnsembleState :=
  { is_trained := true
    feature_columns := ["price"]
    feature_scaler := id
    xgb_model := some fun _ => ⟨1 / 3, 1 / 3, 1 / 3⟩
    lstm_model := none
    keras_available := false
    meta_learner := some fun pr => pr.2
    sequence_length := 24 }

/-- Constant fitted artifacts for `CryptoMLDemo`. -/
def constDemoFits : MlDemo.DemoFits :=
  { scaler := id
    xgbP := fun _ => 3 / 5
    rfP := fun _ => 3 / 5
    metaP := fun _ => 3 / 5
    columns := MlDemo.demoColumns }

/-- The demo instance right after one training run with the constant
fitted artifacts. -/
def demoTrainedState : MlDemo.DemoState :=
  { is_trained := true
    feature_columns := MlDemo.demoColumns
    models := some constDemoFits }

/-- Constant fitted artifacts for `EnsembleLiteModel`. -/
def constLiteFits : EnsembleLite.LiteFits :=
  { feature_columns := ["price"]
    scaler := id
    xgb := fun _ => ⟨1 / 3, 1 / 3, 1 / 3⟩
    nn := fun _ => ⟨1 / 3, 1 / 3, 1 / 3⟩
    meta := fun _ => ⟨1 / 5, 3 / 5, 1 / 5⟩ }

/-- Constant fitted artifacts for a full training run. -/
def constFullFits : Ensemble.FullFits :=
  { feature_columns := ["price"]
    scaler := id
    xgb := fun _ => ⟨1 / 3, 1 / 3, 1 / 3⟩
    lstm := some fun _ => ⟨1 / 3, 1 / 3, 1 / 3⟩
    meta := fun _ => ⟨1 / 5, 3 / 5, 1 / 5⟩ }

/-! ## Helper lemmas about the series combinators -/

namespace Series

open PVal

theorem at'_range_map (f : ℕ → PVal) {n i : ℕ} (h : i < n) :
    Series.at' ((List.range n).map f) i = f i := by
  unfold Series.at'
  rw [List.getD_eq_getElem?_getD, List.getElem?_map, List.getElem?_range h]
  rfl

theorem at'_emap (f : PVal → PVal) (s : Series) {i : ℕ} (h : i < s.length) :
    (s.emap f).at' i = f (s.at' i) := by
  unfold Series.at' Series.emap
  rw [List.getD_eq_getElem?_getD, List.getElem?_map,
    List.getElem?_eq_getElem h]
  simp [List.getD_eq_getElem?_getD, List.getElem?_eq_getElem h]

theorem at'_of_allVal {s : Series}
    (h : ∀ x ∈ s, ∃ q, x = PVal.val q) (i : ℕ) :
    s.at' i = PVal.nan ∨ ∃ q, s.at' i = PVal.val q := by
  unfold Series.at'
  rw [List.getD_eq_getElem?_getD]
  cases hg : s[i]? with
  | none => exact Or.inl rfl
  | some x =>
    obtain ⟨hi, rfl⟩ := List.getElem?_eq_some_iff.1 hg
    exact Or.inr (h _ (List.getElem_mem hi))

/-- Members of a trailing window are members of the series. -/
theorem mem_of_mem_windowAt {s : Series} {i w : ℕ} {x : PVal}
    (h : x ∈ s.windowAt i w) : x ∈ s := by
  unfold Series.windowAt at h
  exact ((List.drop_sublist _ _).trans (List.take_sublist _ _)).mem h

theorem length_diff (s : Series) : s.diff.length = s.length := by
  simp [Series.diff]

theorem length_emap (f : PVal → PVal) (s : Series) :
    (s.emap f).length = s.length := by
  simp [Series.emap]

theorem length_rollingMean (w : ℕ) (s : Series) :
    (rollingMean w s).length = s.length := by
  simp [Series.rollingMean]

theorem length_rollingMeanMin1 (w : ℕ) (s : Series) :
    (rollingMeanMin1 w s).length = s.length := by
  simp [Series.rollingMeanMin1]

theorem length_windowAt {s : Series} {i w : ℕ} (hi : i < s.length) :
    (s.windowAt i w).length = i + 1 - (i + 1 - w) := by
  unfold Series.windowAt
  rw [List.length_drop, List.length_take]
  omega

/-- Every cell of the `where(> 0, 0)` series is a nonnegative rational,
provided the underlying series has no infinities. -/
theorem whereGtZero_allValNonneg {s : Series}
    (h : ∀ x ∈ s, x = PVal.nan ∨ ∃ q, x = PVal.val q) :
    ∀ x ∈ whereGtZeroElseZero s, ∃ q, x = PVal.val q ∧ 0 ≤ q := by
  intro x hx
  unfold whereGtZeroElseZero Series.emap at hx
  obtain ⟨y, hy, rfl⟩ := List.mem_map.1 hx
  rcases h y hy with hnan | ⟨q, rfl⟩
  · subst hnan
    exact ⟨0, by simp [PVal.pgtZero], le_refl 0⟩
  · by_cases hq : 0 < q
    · exact ⟨q, by simp [PVal.pgtZero, hq], le_of_lt hq⟩
    · exact ⟨0, by simp [PVal.pgtZero, hq], le_refl 0⟩

/-- Same for the negated `where(< 0, 0)` series (the `loss` input). -/
theorem negWhereLtZero_allValNonneg {s : Series}
    (h : ∀ x ∈ s, x = PVal.nan ∨ ∃ q, x = PVal.val q) :
    ∀ x ∈ emap PVal.pneg (whereLtZeroElseZero s),
      ∃ q, x = PVal.val q ∧ 0 ≤ q := by
  intro x hx
  unfold whereLtZeroElseZero Series.emap at hx
  obtain ⟨y, hy, rfl⟩ := List.mem_map.1 hx
  obtain ⟨z, hz, rfl⟩ := List.mem_map.1 hy
  rcases h z hz with hnan | ⟨q, rfl⟩
  · subst hnan
    exact ⟨0, by simp [PVal.pltZero, PVal.pneg], le_refl 0⟩
  · by_cases hq : q < 0
    · exact ⟨-q, by simp [PVal.pltZero, PVal.pneg, hq], by linarith⟩
    · exact ⟨0, by simp [PVal.pltZero, PVal.pneg, hq], le_refl 0⟩

/-- The first difference of a series of plain values has no infinities. -/
theorem diff_nan_or_val {s : Series}
    (h : ∀ x ∈ s, ∃ q, x = PVal.val q) :
    ∀ x ∈ s.diff, x = PVal.nan ∨ ∃ q, x = PVal.val q := by
  intro x hx
  unfold Series.diff at hx
  obtain ⟨i, _, rfl⟩ := List.mem_map.1 hx
  by_cases hi : i = 0
  · simp [hi]
  · simp only [hi, if_false]
    rcases at'_of_allVal h i with h1 | ⟨a, h1⟩ <;>
      rcases at'_of_allVal h (i - 1) with h2 | ⟨b, h2⟩ <;>
        rw [h1, h2] <;> simp [PVal.psub, PVal.padd, PVal.pneg]

/-- Sum of a list of plain nonnegative cells. -/
theorem psum_allValNonneg {l : List PVal}
    (h : ∀ x ∈ l, ∃ q, x = PVal.val q ∧ 0 ≤ q) :
    ∃ q, psum l = PVal.val q ∧ 0 ≤ q := by
  induction l with
  | nil => exact ⟨0, rfl, le_refl 0⟩
  | cons x t ih =>
    obtain ⟨q, hx, hq⟩ := h x (List.mem_cons_self x t)
    obtain ⟨r, ht, hr⟩ := ih fun y hy => h y (List.mem_cons_of_mem x hy)
    refine ⟨q + r, ?_, by linarith⟩
    simp [psum] at ht ⊢
    rw [hx, ht, PVal.padd]

/-- Mean of a complete window of plain nonnegative cells. -/
theorem meanFull_allValNonneg {l : List PVal} (hne : l ≠ [])
    (h : ∀ x ∈ l, ∃ q, x = PVal.val q ∧ 0 ≤ q) :
    ∃ q, meanFull l = PVal.val q ∧ 0 ≤ q := by
  obtain ⟨s, hs, hs0⟩ := psum_allValNonneg h
  have hnonan : l.any PVal.isNan = false := by
    rw [List.any_eq_false]
    intro x hx
    obtain ⟨q, rfl, _⟩ := h x hx
    simp [PVal.isNan]
  have hlen : (0 : ℚ) < l.length := by
    have : 0 < l.length := List.length_pos.2 hne
    exact_mod_cast this
  refine ⟨s / l.length, ?_, div_nonneg hs0 (le_of_lt hlen)⟩
  unfold meanFull
  rw [hnonan, if_neg (by simp), hs, PVal.pdiv]
  rw [if_neg (by positivity)]

end Series

namespace Series

open PVal

theorem at'_out {s : Series} {i : ℕ} (h : s.length ≤ i) : s.at' i = PVal.nan := by
  unfold Series.at'
  rw [List.getD_eq_getElem?_getD, List.getElem?_eq_none h]
  rfl

theorem at'_zip2 (f : PVal → PVal → PVal) {a b : Series} {i : ℕ}
    (ha : i < a.length) (hb : i < b.length) :
    (zip2 f a b).at' i = f (a.at' i) (b.at' i) := by
  unfold Series.zip2 Series.at'
  rw [List.getD_eq_getElem?_getD, List.getElem?_zipWith_eq_some.2
    ⟨a[i], b[i], List.getElem?_eq_getElem ha, List.getElem?_eq_getElem hb, rfl⟩]
  simp [List.getD_eq_getElem?_getD, List.getElem?_eq_getElem, ha, hb]

theorem windowVals_of_allVal {l : List PVal}
    (h : ∀ x ∈ l, ∃ q, x = PVal.val q ∧ 0 ≤ q) :
    (windowVals l).length = l.length ∧ ∀ r ∈ windowVals l, 0 ≤ r := by
  induction l with
  | nil => simp [windowVals]
  | cons x t ih =>
    obtain ⟨q, rfl, hq⟩ := h x (List.mem_cons_self x t)
    obtain ⟨hlen, hmem⟩ := ih fun y hy => h y (List.mem_cons_of_mem _ hy)
    constructor
    · simpa [windowVals] using congrArg Nat.succ hlen
    · intro r hr
      rcases List.mem_filterMap.1 hr with ⟨y, hy, hfy⟩
      rcases List.mem_cons.1 hy with rfl | hyt
      · simp at hfy
        exact hfy ▸ hq
      · exact hmem r (List.mem_filterMap.2 ⟨y, hyt, hfy⟩)

end Series

namespace PVal

theorem pdiv_nan_left (y : PVal) : pdiv .nan y = .nan := by cases y <;> rfl

theorem pdiv_nan_right (x : PVal) : pdiv x .nan = .nan := by cases x <;> rfl

end PVal

namespace Ensemble

open PVal Series

/-- The final RSI map `100 - 100/(1 + r)` sends a plain nonnegative ratio
into `[0, 100)`, `+Inf` to exactly `100`, and NaN to NaN. -/
theorem rsiMap_range (r : PVal) :
    (r = PVal.nan → psub (.val 100) (pdiv (.val 100) (padd (.val 1) r)) = PVal.nan) ∧
    (r = PVal.inf → psub (.val 100) (pdiv (.val 100) (padd (.val 1) r)) = PVal.val 100) ∧
    ∀ q : ℚ, r = PVal.val q → 0 ≤ q →
      ∃ u, psub (.val 100) (pdiv (.val 100) (padd (.val 1) r)) = PVal.val u ∧
        0 ≤ u ∧ u ≤ 100 := by
  refine ⟨?_, ?_, ?_⟩
  · rintro rfl; rfl
  · rintro rfl
    with_unfolding_all decide
  · rintro q rfl hq
    have h1 : (1 : ℚ) + q ≠ 0 := by positivity
    refine ⟨100 - 100 / (1 + q), ?_, ?_, ?_⟩
    · simp [padd, pdiv, psub, pneg, h1, sub_eq_add_neg]
    · have : 100 / (1 + q) ≤ 100 := by
        apply div_le_self (by norm_num)
        linarith
      linarith
    · have : 0 < 100 / (1 + q) := by positivity
      linarith

/-- The rolling gain/loss averages of `_calculate_rsi` over a plain-valued
price series: NaN before row 13, a plain nonnegative value afterwards
(in range). -/
theorem rsi_avg_cases {n : ℕ} {input : Series}
    (hmem : ∀ x ∈ input, ∃ q, x = PVal.val q ∧ 0 ≤ q)
    (hlen : input.length = n) {i : ℕ} (hi : i < n) :
    (rollingMean 14 input).at' i = PVal.nan ∨
      (13 ≤ i ∧ ∃ g, (rollingMean 14 input).at' i = PVal.val g ∧ 0 ≤ g) := by
  have hi' : i < input.length := by omega
  rw [rollingMean, at'_range_map _ (by omega)]
  by_cases hw : i + 1 < 14
  · rw [if_pos hw]; exact Or.inl rfl
  · rw [if_neg hw]
    refine Or.inr ⟨by omega, ?_⟩
    have hwin : (input.windowAt i 14).length = i + 1 - (i + 1 - 14) :=
      length_windowAt hi'
    have hne : input.windowAt i 14 ≠ [] := by
      have : 0 < (input.windowAt i 14).length := by omega
      exact List.ne_nil_of_length_pos this
    obtain ⟨g, hg, hg0⟩ :=
      meanFull_allValNonneg hne fun x hx => hmem x (mem_of_mem_windowAt hx)
    exact ⟨g, hg, hg0⟩

/-- Over a plain-valued price series, every cell of
`EnsembleModel._calculate_rsi` is either NaN or a plain value in
`[0, 100]`; in particular the unguarded `gain / loss` ratio never leaves
an infinity in the column. -/
theorem calculate_rsi_range (prices : Series)
    (h : ∀ x ∈ prices, ∃ q, x = PVal.val q) (i : ℕ) :
    (calculate_rsi prices).at' i = PVal.nan ∨
      ∃ q, (calculate_rsi prices).at' i = PVal.val q ∧ 0 ≤ q ∧ q ≤ 100 := by
  set n := prices.length with hn
  have hdiffLen : prices.diff.length = n := length_diff prices
  have hGainInLen : (whereGtZeroElseZero prices.diff).length = n := by
    rw [whereGtZeroElseZero, length_emap, hdiffLen]
  have hLossInLen : (emap pneg (whereLtZeroElseZero prices.diff)).length = n := by
    rw [length_emap, whereLtZeroElseZero, length_emap, hdiffLen]
  have hGainLen : (rollingMean 14 (whereGtZeroElseZero prices.diff)).length = n := by
    rw [length_rollingMean, hGainInLen]
  have hLossLen :
      (rollingMean 14 (emap pneg (whereLtZeroElseZero prices.diff))).length = n := by
    rw [length_rollingMean, hLossInLen]
  have hRsLen :
      (zip2 pdiv (rollingMean 14 (whereGtZeroElseZero prices.diff))
        (rollingMean 14 (emap pneg (whereLtZeroElseZero prices.diff)))).length = n := by
    rw [zip2, List.length_zipWith, hGainLen, hLossLen, min_self]
  rw [calculate_rsi]
  by_cases hi : i < n
  · rw [at'_emap _ _ (by rw [hRsLen]; exact hi)]
    rw [at'_zip2 pdiv (by rw [hGainLen]; exact hi) (by rw [hLossLen]; exact hi)]
    have hgain := rsi_avg_cases
      (whereGtZero_allValNonneg (diff_nan_or_val h)) hGainInLen hi
    have hloss := rsi_avg_cases
      (negWhereLtZero_allValNonneg (diff_nan_or_val h)) hLossInLen hi
    rcases hgain with hg | ⟨_, g, hg, hg0⟩
    · rw [hg, pdiv_nan_left]
      exact Or.inl ((rsiMap_range _).1 rfl)
    rcases hloss with hl | ⟨_, l, hl, hl0⟩
    · rw [hg, hl, pdiv_nan_right]
      exact Or.inl ((rsiMap_range _).1 rfl)
    rw [hg, hl]
    by_cases hlz : l = 0
    · by_cases hgz : g = 0
      · subst hlz; subst hgz
        exact Or.inl ((rsiMap_range _).1 (by simp [pdiv]))
      · have hgpos : 0 < g := lt_of_le_of_ne hg0 (Ne.symm hgz)
        have : pdiv (PVal.val g) (PVal.val l) = PVal.inf := by
          subst hlz; simp [pdiv, hgz, hgpos]
        rw [this]
        exact Or.inr ⟨100, (rsiMap_range _).2.1 rfl, by norm_num, by norm_num⟩
    · have hlpos : 0 < l := lt_of_le_of_ne hl0 (Ne.symm hlz)
      have : pdiv (PVal.val g) (PVal.val l) = PVal.val (g / l) := by
        simp [pdiv, hlz]
      rw [this]
      obtain ⟨u, hu, hu0, hu100⟩ :=
        (rsiMap_range _).2.2 (g / l) rfl (div_nonneg hg0 hl0)
      exact Or.inr ⟨u, hu, hu0, hu100⟩
  · left
    apply at'_out
    rw [length_emap, hRsLen]
    omega

end Ensemble

namespace Series

open PVal

/-- A `min_periods=1` rolling mean over plain nonnegative cells is a plain
nonnegative value at every in-range row. -/
theorem rollingMeanMin1_allValNonneg {n : ℕ} {input : Series}
    (hmem : ∀ x ∈ input, ∃ q, x = PVal.val q ∧ 0 ≤ q)
    (hlen : input.length = n) {i : ℕ} (hi : i < n) :
    ∃ g, (rollingMeanMin1 14 input).at' i = PVal.val g ∧ 0 ≤ g := by
  rw [rollingMeanMin1, hlen, at'_range_map _ hi]
  obtain ⟨hvl, hvm⟩ :=
    windowVals_of_allVal (l := input.windowAt i 14)
      fun x hx => hmem x (mem_of_mem_windowAt hx)
  have hwlen : (input.windowAt i 14).length = i + 1 - (i + 1 - 14) :=
    length_windowAt (by omega)
  have hpos : 0 < (windowVals (input.windowAt i 14)).length := by
    rw [hvl, hwlen]; omega
  simp only [if_neg (by omega : ¬ (windowVals (input.windowAt i 14)).length = 0)]
  refine ⟨_, rfl, ?_⟩
  have hlenpos : (0 : ℚ) < (windowVals (input.windowAt i 14)).length := by
    exact_mod_cast hpos
  exact div_nonneg (List.sum_nonneg hvm) (le_of_lt hlenpos)

end Series

namespace EnsembleLite

open PVal Series

/-- Over a plain-valued price series, every in-range cell of
`EnsembleLiteModel._calculate_rsi_simple` is a plain value in `[0, 100]`:
the `1e-8` epsilon keeps the denominator positive, so neither NaN nor
±Inf ever appears (and the `fillna(50)` is a no-op there). -/
theorem calculate_rsi_simple_range (prices : Series)
    (h : ∀ x ∈ prices, ∃ q, x = PVal.val q) {i : ℕ}
    (hi : i < prices.length) :
    ∃ q, (calculate_rsi_simple prices).at' i = PVal.val q ∧
      0 ≤ q ∧ q ≤ 100 := by
  set n := prices.length with hn
  have hdiffLen : prices.diff.length = n := length_diff prices
  have hGainInLen : (whereGtZeroElseZero prices.diff).length = n := by
    rw [whereGtZeroElseZero, length_emap, hdiffLen]
  have hLossInLen : (emap pneg (whereLtZeroElseZero prices.diff)).length = n := by
    rw [length_emap, whereLtZeroElseZero, length_emap, hdiffLen]
  have hGainLen :
      (rollingMeanMin1 14 (whereGtZeroElseZero prices.diff)).length = n := by
    rw [length_rollingMeanMin1, hGainInLen]
  have hLossLen :
      (rollingMeanMin1 14 (emap pneg (whereLtZeroElseZero prices.diff))).length
        = n := by
    rw [length_rollingMeanMin1, hLossInLen]
  obtain ⟨g, hg, hg0⟩ := rollingMeanMin1_allValNonneg
    (whereGtZero_allValNonneg (diff_nan_or_val h)) hGainInLen hi
  obtain ⟨l, hl, hl0⟩ := rollingMeanMin1_allValNonneg
    (negWhereLtZero_allValNonneg (diff_nan_or_val h)) hLossInLen hi
  have hLossEpsLen :
      ((rollingMeanMin1 14
        (emap pneg (whereLtZeroElseZero prices.diff))).emap
          (fun v => padd v (PVal.val (1 / 100000000)))).length = n := by
    rw [length_emap, hLossLen]
  have hRsLen :
      (zip2 pdiv (rollingMeanMin1 14 (whereGtZeroElseZero prices.diff))
        ((rollingMeanMin1 14
          (emap pneg (whereLtZeroElseZero prices.diff))).emap
            (fun v => padd v (PVal.val (1 / 100000000))))).length = n := by
    rw [zip2, List.length_zipWith, hGainLen, hLossEpsLen, min_self]
  have hdenpos : (0 : ℚ) < l + 1 / 100000000 := by positivity
  have hr0 : 0 ≤ g / (l + 1 / 100000000) :=
    div_nonneg hg0 (le_of_lt hdenpos)
  have h1r : (1 : ℚ) + g / (l + 1 / 100000000) ≠ 0 := by positivity
  rw [calculate_rsi_simple]
  rw [fillna, at'_emap _ _ (by rw [length_emap, hRsLen]; exact hi)]
  rw [at'_emap _ _ (by rw [hRsLen]; exact hi)]
  rw [at'_zip2 pdiv (by rw [hGainLen]; exact hi) (by rw [hLossEpsLen]; exact hi)]
  rw [at'_emap _ _ (by rw [hLossLen]; exact hi), hg, hl]
  have hpadd : padd (PVal.val l) (PVal.val (1 / 100000000))
      = PVal.val (l + 1 / 100000000) := rfl
  rw [hpadd]
  have hdne : l + 1 / 100000000 ≠ 0 := by positivity
  have hpdiv : pdiv (PVal.val g) (PVal.val (l + 1 / 100000000))
      = PVal.val (g / (l + 1 / 100000000)) := by
    show (if l + 1 / 100000000 = 0 then _ else _) = _
    rw [if_neg hdne]
  rw [hpdiv]
  have e1 : padd (PVal.val 1) (PVal.val (g / (l + 1 / 100000000)))
      = PVal.val (1 + g / (l + 1 / 100000000)) := rfl
  have e2 : pdiv (PVal.val 100) (PVal.val (1 + g / (l + 1 / 100000000)))
      = PVal.val (100 / (1 + g / (l + 1 / 100000000))) := by
    show (if 1 + g / (l + 1 / 100000000) = 0 then _ else _) = _
    rw [if_neg h1r]
  have e3 : psub (PVal.val 100)
        (PVal.val (100 / (1 + g / (l + 1 / 100000000))))
      = PVal.val (100 - 100 / (1 + g / (l + 1 / 100000000))) := by
    simp [psub, padd, pneg, sub_eq_add_neg]
  rw [e1, e2, e3]
  refine ⟨100 - 100 / (1 + g / (l + 1 / 100000000)), ?_, ?_, ?_⟩
  · simp [PVal.isNan]
  · have : 100 / (1 + g / (l + 1 / 100000000)) ≤ 100 := by
      apply div_le_self (by norm_num)
      linarith
    linarith
  · have : 0 < 100 / (1 + g / (l + 1 / 100000000)) := by positivity
    linarith

end EnsembleLite

/-! ## Helper lemmas: feature reconstruction over numeric dictionaries -/

theorem dictGet_ne_nonNum {fs : FeatureDict}
    (h : ∀ p ∈ fs, p.2 ≠ FVal.nonNum) (k : String) :
    dictGet fs k ≠ some FVal.nonNum := by
  unfold dictGet
  cases hf : fs.find? (fun p => strEq p.1 k) with
  | none => simp
  | some p =>
    have hmem := List.mem_of_find?_eq_some hf
    have hp := h p hmem
    intro he
    exact hp (by simpa using he)

theorem assignNum_ok {o : Option FVal} (h : o ≠ some FVal.nonNum) :
    ∃ q, assignNum o = .ok q := by
  match o with
  | none => exact ⟨0, rfl⟩
  | some (.num q) => exact ⟨q, rfl⟩
  | some .nonNum => exact absurd rfl h

namespace Ensemble

theorem pillarGet50_ok {fs : FeatureDict}
    (h : ∀ p ∈ fs, p.2 ≠ FVal.nonNum) (k : String) :
    ∃ q, pillarGet50 fs k = .ok q := by
  unfold pillarGet50
  cases hd : dictGet fs k with
  | none => exact ⟨50, rfl⟩
  | some v =>
    cases v with
    | num q => exact ⟨q, rfl⟩
    | nonNum => exact absurd hd (dictGet_ne_nonNum h k)

theorem pillarComposite_ok {fs : FeatureDict}
    (h : ∀ p ∈ fs, p.2 ≠ FVal.nonNum) :
    ∃ q, pillarComposite fs = .ok q := by
  obtain ⟨t, ht⟩ := pillarGet50_ok h "tech_score"
  obtain ⟨u, hu⟩ := pillarGet50_ok h "social_score"
  obtain ⟨f, hf⟩ := pillarGet50_ok h "fund_score"
  obtain ⟨a, ha⟩ := pillarGet50_ok h "astro_score"
  refine ⟨(t + u + f + a) / 4, ?_⟩
  simp [pillarComposite, ht, hu, hf, ha, Bind.bind, Except.bind]

theorem featureEntry_ok {fs : FeatureDict}
    (h : ∀ p ∈ fs, p.2 ≠ FVal.nonNum) (col : String) :
    ∃ q, featureEntry fs col = .ok q := by
  unfold featureEntry
  split_ifs with h1 h2 h3 h4 h5 h6 h7
  · exact assignNum_ok (dictGet_ne_nonNum h col)
  · exact assignNum_ok (dictGet_ne_nonNum h "price")
  · exact assignNum_ok (dictGet_ne_nonNum h "price")
  · exact ⟨0, rfl⟩
  · cases hd : dictGet fs (basePillar col) with
    | none => exact ⟨0, rfl⟩
    | some v =>
      cases v with
      | num q => exact ⟨q, rfl⟩
      | nonNum => exact absurd hd (dictGet_ne_nonNum h (basePillar col))
  · exact assignNum_ok (dictGet_ne_nonNum h "volume")
  · exact pillarComposite_ok h
  · exact ⟨0, rfl⟩

theorem create_feature_vector_ok {fs : FeatureDict}
    (h : ∀ p ∈ fs, p.2 ≠ FVal.nonNum) (cols : List String) :
    ∃ v, create_feature_vector cols fs = .ok v ∧
      v.length = cols.length := by
  induction cols with
  | nil => exact ⟨[], rfl, rfl⟩
  | cons c t ih =>
    obtain ⟨q, hq⟩ := featureEntry_ok h c
    obtain ⟨v, hv, hl⟩ := ih
    refine ⟨q :: v, ?_, by simp [hl]⟩
    simp [create_feature_vector, hq, hv, Bind.bind, Except.bind]

end Ensemble

namespace EnsembleLite

theorem lite_featureEntry_ok {fs : FeatureDict}
    (h : ∀ p ∈ fs, p.2 ≠ FVal.nonNum) (col : String) :
    ∃ q, featureEntry fs col = .ok q := by
  unfold featureEntry
  split_ifs with h1 h2 h3 h4 h5 h6 h7 h8 h9
  · exact assignNum_ok (dictGet_ne_nonNum h col)
  · exact assignNum_ok (dictGet_ne_nonNum h "price")
  · exact assignNum_ok (dictGet_ne_nonNum h "volume")
  · exact assignNum_ok (dictGet_ne_nonNum h "tech_score")
  · exact assignNum_ok (dictGet_ne_nonNum h "social_score")
  · exact assignNum_ok (dictGet_ne_nonNum h "fund_score")
  · exact assignNum_ok (dictGet_ne_nonNum h "astro_score")
  · exact Ensemble.pillarComposite_ok h
  · obtain ⟨t, ht⟩ := Ensemble.pillarGet50_ok h "tech_score"
    obtain ⟨u, hu⟩ := Ensemble.pillarGet50_ok h "social_score"
    refine ⟨t * u / 100, ?_⟩
    simp [ht, hu, Bind.bind, Except.bind]
  · exact ⟨0, rfl⟩

theorem lite_create_feature_vector_ok {fs : FeatureDict}
    (h : ∀ p ∈ fs, p.2 ≠ FVal.nonNum) (cols : List String) :
    ∃ v, create_feature_vector cols fs = .ok v ∧
      v.length = cols.length := by
  induction cols with
  | nil => exact ⟨[], rfl, rfl⟩
  | cons c t ih =>
    obtain ⟨q, hq⟩ := lite_featureEntry_ok h c
    obtain ⟨v, hv, hl⟩ := ih
    refine ⟨q :: v, ?_, by simp [hl]⟩
    simp [create_feature_vector, hq, hv, Bind.bind, Except.bind]

end EnsembleLite

/-! ## Helper lemmas: the inference path -/

namespace Ensemble

/-- On a trained instance the full predict never surfaces an error: every
internal path ends in `.ok` (the `except` clause maps failures to 0.0). -/
theorem predict_trained_ok (sqrtQ : ℚ → ℚ) (st : EnsembleState)
    (fs : FeatureDict) (ph : Option (List ℚ)) (rng : List ℚ)
    (h : st.is_trained = true) :
    ∃ q, predict_ensemble sqrtQ st fs ph rng = .ok q := by
  unfold predict_ensemble
  rw [h]
  simp only [if_true]
  cases hc : create_feature_vector st.feature_columns fs with
  | error e => exact ⟨0, rfl⟩
  | ok v =>
    cases hx : st.xgb_model with
    | none =>
      cases hm : st.meta_learner with
      | none =>
        cases hl : lstmInputE sqrtQ st fs ph with
        | error e => exact ⟨0, rfl⟩
        | ok lstmIn => exact ⟨0, rfl⟩
      | some meta =>
        cases hl : lstmInputE sqrtQ st fs ph with
        | error e => exact ⟨0, rfl⟩
        | ok lstmIn => exact ⟨0, rfl⟩
    | some xgb =>
      cases hm : st.meta_learner with
      | none =>
        cases hl : lstmInputE sqrtQ st fs ph with
        | error e => exact ⟨0, rfl⟩
        | ok lstmIn => exact ⟨0, rfl⟩
      | some meta =>
        cases hl : lstmInputE sqrtQ st fs ph with
        | error e => exact ⟨0, rfl⟩
        | ok lstmIn => exact ⟨_, rfl⟩

/-- A reconstruction failure on a trained instance is absorbed into the
neutral `0.0` result. -/
theorem predict_masks_reconstruction_failure (sqrtQ : ℚ → ℚ)
    (st : EnsembleState) (fs : FeatureDict) (ph : Option (List ℚ))
    (rng : List ℚ) (e : Unit) (h : st.is_trained = true)
    (hc : create_feature_vector st.feature_columns fs = .error e) :
    predict_ensemble sqrtQ st fs ph rng = .ok 0 := by
  unfold predict_ensemble
  rw [h]
  simp only [if_true, hc]

/-- With the sequence learner present and Keras available, the random
stream is never consumed: predictions are independent of it. -/
theorem predict_rng_independent (sqrtQ : ℚ → ℚ) (st : EnsembleState)
    (fs : FeatureDict) (ph : Option (List ℚ)) (rng rng2 : List ℚ)
    (hl : st.lstm_model.isSome = true) (hk : st.keras_available = true) :
    predict_ensemble sqrtQ st fs ph rng
      = predict_ensemble sqrtQ st fs ph rng2 := by
  obtain ⟨m, hm⟩ := Option.isSome_iff_exists.1 hl
  unfold predict_ensemble
  rw [hm, hk]

end Ensemble

namespace EnsembleLite

/-- The lite predict on a trained instance never surfaces an error. -/
theorem lite_predict_trained_ok (st : LiteState) (fs : FeatureDict)
    (h : st.is_trained = true) :
    ∃ q, predict_ensemble st fs = .ok q := by
  unfold predict_ensemble
  rw [h]
  simp only [if_true]
  cases hc : create_feature_vector st.feature_columns fs with
  | error e => exact ⟨0, rfl⟩
  | ok v =>
    cases hx : st.xgb_model with
    | none =>
      cases hn : st.nn_model with
      | none => cases hm : st.meta_learner
        <;> exact ⟨0, rfl⟩
      | some nn => cases hm : st.meta_learner
        <;> exact ⟨0, rfl⟩
    | some xgb =>
      cases hn : st.nn_model with
      | none => cases hm : st.meta_learner
        <;> exact ⟨0, rfl⟩
      | some nn =>
        cases hm : st.meta_learner with
        | none => exact ⟨0, rfl⟩
        | some meta => exact ⟨_, rfl⟩

/-- A reconstruction failure on a trained lite instance is absorbed into
the neutral `0.0` result. -/
theorem lite_predict_masks_reconstruction_failure (st : LiteState)
    (fs : FeatureDict) (e : Unit) (h : st.is_trained = true)
    (hc : create_feature_vector st.feature_columns fs = .error e) :
    predict_ensemble st fs = .ok 0 := by
  unfold predict_ensemble
  rw [h]
  simp only [if_true, hc]

end EnsembleLite

namespace Ensemble

/-- Rows kept by `dropna` have no NaN in any engineered column. -/
theorem surviving_row_nanFree {cols : List (String × Series)} {n i : ℕ}
    (hi : i ∈ survivingRows cols n) :
    ∀ c ∈ cols, ((c.2).at' i).isNan = false := by
  intro c hc
  have h2 := (List.mem_filter.1 hi).2
  unfold rowIsNanFree at h2
  have h3 := List.all_eq_true.1 h2 c hc
  simpa using h3

/-- `engineeredRowCount` never exceeds the raw row count: `dropna` only
removes rows. -/
theorem engineeredRowCount_le (sqrtQ logQ : ℚ → ℚ) (df : InputDf) :
    engineeredRowCount sqrtQ logQ df ≤ df.price.length := by
  unfold engineeredRowCount survivingRows
  calc (List.filter (rowIsNanFree (engineer_features sqrtQ logQ df))
          (List.range df.price.length)).length
      ≤ (List.range df.price.length).length := List.length_filter_le _ _
    _ = df.price.length := List.length_range _

/-- The insufficiency gate of `prepare_training_data`, reporting the
engineered row count. -/
theorem prepare_training_data_insufficient (sqrtQ logQ : ℚ → ℚ)
    (df : InputDf) (h : engineeredRowCount sqrtQ logQ df < 50) :
    prepare_training_data sqrtQ logQ df
      = .error (.insufficientData (engineeredRowCount sqrtQ logQ df)) := by
  unfold engineeredRowCount at h ⊢
  unfold prepare_training_data
  rw [if_pos h]

end Ensemble

/-! ## Helper lemmas: score bounds -/

namespace Prob3

theorem probAt_bounds {d : Prob3} (hd : d.IsDist) (i : ℕ) :
    0 ≤ d.probAt i ∧ d.probAt i ≤ 1 := by
  obtain ⟨h0, h1, h2, hsum⟩ := hd
  rcases i with _ | _ | i <;> simp [probAt] <;> constructor <;> linarith

theorem maxP_bounds {d : Prob3} (hd : d.IsDist) :
    0 ≤ d.maxP ∧ d.maxP ≤ 1 := by
  obtain ⟨h0, h1, h2, hsum⟩ := hd
  unfold maxP
  constructor
  · exact le_trans h0 (le_max_left _ _)
  · apply max_le (by linarith)
    apply max_le (by linarith) (by linarith)

end Prob3

namespace Ensemble

/-- The argmax-based scalar of the full model lies in `[-1, 1]` on any
probability row. -/
theorem directionalScore_bounds {d : Prob3} (hd : d.IsDist) :
    -1 ≤ directionalScore d ∧ directionalScore d ≤ 1 := by
  obtain ⟨hc0, hc1⟩ := Prob3.probAt_bounds hd d.argmax
  unfold directionalScore
  dsimp only
  split_ifs <;> constructor <;> linarith

end Ensemble

namespace EnsembleLite

/-- The lite scalar collapses with NEUTRAL mass: its magnitude is at most
`1 − P(NEUTRAL)`, hence it lies in `[-1, 1]`. -/
theorem lite_directionalScore_bounds {d : Prob3} (hd : d.IsDist) :
    |directionalScore d| ≤ 1 - d.p1 ∧
      -1 ≤ directionalScore d ∧ directionalScore d ≤ 1 := by
  obtain ⟨h0, h1, h2, hsum⟩ := hd
  obtain ⟨hm0, hm1⟩ := Prob3.maxP_bounds ⟨h0, h1, h2, hsum⟩
  have habs : |d.p2 - d.p0| ≤ 1 - d.p1 := by
    rw [abs_le]
    constructor <;> linarith
  have hkey : |directionalScore d| ≤ 1 - d.p1 := by
    unfold directionalScore
    rw [abs_mul, abs_of_nonneg hm0]
    calc |d.p2 - d.p0| * d.maxP ≤ (1 - d.p1) * 1 := by
          apply mul_le_mul habs hm1 hm0
          linarith
      _ = 1 - d.p1 := mul_one _
  refine ⟨hkey, ?_, ?_⟩
  · have := abs_le.1 (le_trans hkey (by linarith : 1 - d.p1 ≤ 1))
    exact this.1
  · have := abs_le.1 (le_trans hkey (by linarith : 1 - d.p1 ≤ 1))
    exact this.2

end EnsembleLite

/-! ## The claims -/

/-- C1: for every trained ensemble schema and every partial input
dictionary with numeric values (any subset of the schema's names,
including the empty dictionary), the reconstructed feature vector of both
`EnsembleModel._create_feature_vector` and
`EnsembleLiteModel._create_feature_vector` is produced without error and
has length exactly `len(feature_columns)`; every entry is a rational
number by construction. -/
theorem C1_schema_stability (cols : List String) (fs : FeatureDict)
    (h : ∀ p ∈ fs, p.2 ≠ FVal.nonNum) :
    (∃ v, Ensemble.create_feature_vector cols fs = .ok v ∧
       v.length = cols.length) ∧
    (∃ w, EnsembleLite.create_feature_vector cols fs = .ok w ∧
       w.length = cols.length) :=
  ⟨Ensemble.create_feature_vector_ok h cols,
   EnsembleLite.lite_create_feature_vector_ok h cols⟩

/-- Witness for C1: the full 59-column frozen schema with the empty
dictionary. -/
theorem C1_schema_stability_witness :
    (∃ v, Ensemble.create_feature_vector ensembleSchema [] = .ok v ∧
       v.length = ensembleSchema.length) ∧
    (∃ w, EnsembleLite.create_feature_vector ensembleSchema [] = .ok w ∧
       w.length = ensembleSchema.length) :=
  C1_schema_stability ensembleSchema []
    (by intro p hp; exact absurd hp (List.not_mem_nil p))

/-- C2 counterexample: `CryptoMLDemo.predict` called on the untrained
instance does not raise a `NotTrainedError` — it silently trains
(`is_trained` flips to true) and returns a successful prediction
dictionary (ml_demo.py 227-229). -/
theorem C2_counterexample :
    MlDemo.initState.is_trained = false ∧
    (MlDemo.predict constDemoFits MlDemo.initState demoScenarioDict).2.success
      = true ∧
    (MlDemo.predict constDemoFits MlDemo.initState demoScenarioDict).1.is_trained
      = true := by
  with_unfolding_all decide

/-- C2 (amended): `EnsembleModel.predict_ensemble` and
`EnsembleLiteModel.predict_ensemble` in the Untrained state always fail
with the typed not-trained error and never train implicitly; but
`CryptoMLDemo.predict` instead silently runs a full training pass when
untrained and returns a prediction. -/
theorem C2_untrained_predict_fails :
    (∀ (sqrtQ : ℚ → ℚ) (st : Ensemble.EnsembleState) (fs : FeatureDict)
       (ph : Option (List ℚ)) (rng : List ℚ), st.is_trained = false →
       Ensemble.predict_ensemble sqrtQ st fs ph rng
         = .error .notTrained) ∧
    (∀ (st : EnsembleLite.LiteState) (fs : FeatureDict),
       st.is_trained = false →
       EnsembleLite.predict_ensemble st fs = .error .notTrained) ∧
    (∀ (fit : MlDemo.DemoFits) (st : MlDemo.DemoState) (fs : MlDemo.QDict),
       st.is_trained = false →
       (MlDemo.predict fit st fs).1.is_trained = true ∧
       (MlDemo.predict fit st fs).2.success = true) := by
  refine ⟨?_, ?_, ?_⟩
  · intro sqrtQ st fs ph rng h
    unfold Ensemble.predict_ensemble
    rw [h]
    rfl
  · intro st fs h
    unfold EnsembleLite.predict_ensemble
    rw [h]
    rfl
  · intro fit st fs h
    unfold MlDemo.predict
    rw [h]
    simp only [Bool.false_eq_true, if_false]
    unfold MlDemo.train_ensemble
    exact ⟨rfl, rfl⟩

/-- Witness for C2's amended theorem: both cores reject the untrained
predict on their initial states, and the demo trains instead. -/
theorem C2_untrained_predict_fails_witness :
    Ensemble.predict_ensemble sq0 (Ensemble.initState true) priceDict none []
      = .error .notTrained ∧
    EnsembleLite.predict_ensemble EnsembleLite.initState priceDict
      = .error .notTrained ∧
    (MlDemo.predict constDemoFits MlDemo.initState demoScenarioDict).1.is_trained
      = true :=
  ⟨C2_untrained_predict_fails.1 sq0 (Ensemble.initState true) priceDict none []
     rfl,
   C2_untrained_predict_fails.2.1 EnsembleLite.initState priceDict rfl,
   (C2_untrained_predict_fails.2.2 constDemoFits MlDemo.initState
     demoScenarioDict rfl).1⟩

/-- C3 counterexample: on a trained `EnsembleModel`, a dictionary whose
`price` value is non-numeric makes the feature reconstruction raise
internally, and `predict_ensemble` masks that failure by returning the
neutral `0.0` instead of surfacing a typed error (ensemble.py 554-556). -/
theorem C3_counterexample :
    Ensemble.create_feature_vector stConst.feature_columns badDict
      = .error () ∧
    Ensemble.predict_ensemble sq0 stConst badDict none [] = .ok 0 := by
  constructor
  · with_unfolding_all rfl
  · with_unfolding_all rfl

/-- C3 (amended): a prediction call on a trained instance never surfaces
an internal failure — the full and lite models' `try/except` returns the
neutral score `0.0` on any reconstruction failure and `.ok` on every
other path; only the untrained check raises. -/
theorem C3_predict_total_or_error :
    (∀ (sqrtQ : ℚ → ℚ) (st : Ensemble.EnsembleState) (fs : FeatureDict)
       (ph : Option (List ℚ)) (rng : List ℚ), st.is_trained = true →
       ∃ q, Ensemble.predict_ensemble sqrtQ st fs ph rng = .ok q) ∧
    (∀ (sqrtQ : ℚ → ℚ) (st : Ensemble.EnsembleState) (fs : FeatureDict)
       (ph : Option (List ℚ)) (rng : List ℚ) (e : Unit),
       st.is_trained = true →
       Ensemble.create_feature_vector st.feature_columns fs = .error e →
       Ensemble.predict_ensemble sqrtQ st fs ph rng = .ok 0) ∧
    (∀ (st : EnsembleLite.LiteState) (fs : FeatureDict),
       st.is_trained = true →
       ∃ q, EnsembleLite.predict_ensemble st fs = .ok q) ∧
    (∀ (st : EnsembleLite.LiteState) (fs : FeatureDict) (e : Unit),
       st.is_trained = true →
       EnsembleLite.create_feature_vector st.feature_columns fs = .error e →
       EnsembleLite.predict_ensemble st fs = .ok 0) :=
  ⟨fun sqrtQ st fs ph rng h => Ensemble.predict_trained_ok sqrtQ st fs ph rng h,
   fun sqrtQ st fs ph rng e h hc =>
     Ensemble.predict_masks_reconstruction_failure sqrtQ st fs ph rng e h hc,
   fun st fs h => EnsembleLite.lite_predict_trained_ok st fs h,
   fun st fs e h hc =>
     EnsembleLite.lite_predict_masks_reconstruction_failure st fs e h hc⟩

/-- Witness for C3's amended theorem at a concrete trained snapshot. -/
theorem C3_predict_total_or_error_witness :
    (∃ q, Ensemble.predict_ensemble sq0 stConst priceDict none [] = .ok q) ∧
    Ensemble.predict_ensemble sq0 stConst badDict none [] = .ok 0 :=
  ⟨C3_predict_total_or_error.1 sq0 stConst priceDict none [] rfl,
   C3_predict_total_or_error.2.1 sq0 stConst badDict none [] () rfl
     (by with_unfolding_all rfl)⟩

/-- C4 counterexample: with the sequence learner unavailable
(`lstm_model is None`), `predict_ensemble` feeds fresh `np.random.rand`
draws into the meta-learner's LSTM slot (ensemble.py 527-530): two calls
with the identical input dictionary but different draws return different
outputs. -/
theorem C4_counterexample :
    Ensemble.predict_ensemble sq0 stNoLstm priceDict none [1, 0, 0]
      = .ok (-1) ∧
    Ensemble.predict_ensemble sq0 stNoLstm priceDict none [0, 0, 1]
      = .ok 0 ∧
    ((-1 : ℚ) ≠ 0) := by
  refine ⟨?_, ?_, by norm_num⟩
  · with_unfolding_all rfl
  · with_unfolding_all rfl

/-- C4 (amended): when the optional sequence learner is present and its
dependency available, the inference path consumes no randomness — two
`predict_ensemble` calls with identical inputs and the same snapshot give
identical outputs regardless of the random stream; the fallback path
taken when it is unavailable does consume random draws. -/
theorem C4_determinism_with_lstm (sqrtQ : ℚ → ℚ)
    (st : Ensemble.EnsembleState) (fs : FeatureDict) (ph : Option (List ℚ))
    (rng rng2 : List ℚ) (hl : st.lstm_model.isSome = true)
    (hk : st.keras_available = true) :
    Ensemble.predict_ensemble sqrtQ st fs ph rng
      = Ensemble.predict_ensemble sqrtQ st fs ph rng2 :=
  Ensemble.predict_rng_independent sqrtQ st fs ph rng rng2 hl hk

/-- Witness for C4's amended theorem: the trained constant snapshot with
its LSTM present gives the same answer under two different random
streams. -/
theorem C4_determinism_with_lstm_witness :
    Ensemble.predict_ensemble sq0 stConst priceDict none [1, 0, 0]
      = Ensemble.predict_ensemble sq0 stConst priceDict none [0, 0, 1] :=
  C4_determinism_with_lstm sq0 stConst priceDict none [1, 0, 0] [0, 0, 1]
    rfl rfl

/-- C5 counterexample: `CryptoMLDemo.train_ensemble` splits with
scikit-learn's `train_test_split` at its default `shuffle=True`
(ml_demo.py 157), which permutes the rows by the seeded RNG before
cutting: under the explicit sample permutation `[2, 0, 4, 1, 3]` on the
chronologically sorted series `0..4`, the held-out set contains an
observation earlier than a training observation — while the slicing
split of ensemble.py on the same series is chronological. -/
theorem C5_counterexample :
    ([0, 1, 2, 3, 4] : List ℚ).Sorted (· < ·) ∧
    heldOutStrictlyLater
      (MlDemo.train_test_split [2, 0, 4, 1, 3] 1 [0, 1, 2, 3, 4]).1
      (MlDemo.train_test_split [2, 0, 4, 1, 3] 1 [0, 1, 2, 3, 4]).2 = false ∧
    heldOutStrictlyLater (Ensemble.chronoSplit ([0, 1, 2, 3, 4] : List ℚ)).1
      (Ensemble.chronoSplit ([0, 1, 2, 3, 4] : List ℚ)).2 = true := by
  with_unfolding_all decide

/-- C5 (amended): `EnsembleModel.prepare_training_data` and
`EnsembleLiteModel` split the series by slicing at `int(0.8·n)` with no
shuffling, so on a chronologically sorted series every held-out
observation is strictly later than every training observation;
`CryptoMLDemo.train_ensemble`, however, shuffles with
`train_test_split(..., random_state=42)` before splitting. -/
theorem C5_chronological_split :
    (∀ ts : List ℚ, ts.Sorted (· < ·) →
       ∀ b ∈ (Ensemble.chronoSplit ts).1,
         ∀ a ∈ (Ensemble.chronoSplit ts).2, b < a) ∧
    (∀ ts : List ℚ, ts.Sorted (· < ·) →
       ∀ b ∈ (EnsembleLite.chronoSplit ts).1,
         ∀ a ∈ (EnsembleLite.chronoSplit ts).2, b < a) := by
  constructor <;>
  · intro ts hs b hb a ha
    exact hs.rel_of_mem_take_of_mem_drop hb ha

/-- Witness for C5's amended theorem on the sorted series `0..4`. -/
theorem C5_chronological_split_witness :
    ∀ b ∈ (Ensemble.chronoSplit ([0, 1, 2, 3, 4] : List ℚ)).1,
      ∀ a ∈ (Ensemble.chronoSplit ([0, 1, 2, 3, 4] : List ℚ)).2, b < a :=
  C5_chronological_split.1 [0, 1, 2, 3, 4] (by norm_num)

/-- C6 counterexample: the full model's scalar is the signed winning-class
probability, not the spec's `(P(BULLISH) − P(BEARISH)) × max(P)` — at the
meta output `(0.3, 0.4, 0.3)` the code returns `0.4`, the spec's formula
gives `0.04`. -/
theorem C6_counterexample :
    Ensemble.predict_ensemble sq0 stConst priceDict none [] = .ok (2 / 5) ∧
    specDerivedScore (2 / 5) (3 / 10)
      (Prob3.maxP ⟨3 / 10, 2 / 5, 3 / 10⟩) = 1 / 25 ∧
    ((2 : ℚ) / 5 ≠ 1 / 25) := by
  refine ⟨?_, ?_, by norm_num⟩
  · with_unfolding_all rfl
  · with_unfolding_all decide

/-- C6 (amended): `EnsembleLiteModel` computes exactly the spec's derived
score `(P(BULLISH) − P(BEARISH)) × max(P)` (classes 0 = BEARISH,
1 = NEUTRAL, 2 = BULLISH), its magnitude is bounded by `1 − P(NEUTRAL)`
(so NEUTRAL dominance collapses it toward 0) and it lies in `[-1, 1]`;
`EnsembleModel` instead returns the signed argmax-class probability,
which also lies in `[-1, 1]`. -/
theorem C6_derived_score :
    (∀ d : Prob3, EnsembleLite.directionalScore d
       = specDerivedScore d.p2 d.p0 d.maxP) ∧
    (∀ d : Prob3, d.IsDist →
       |EnsembleLite.directionalScore d| ≤ 1 - d.p1 ∧
       -1 ≤ EnsembleLite.directionalScore d ∧
       EnsembleLite.directionalScore d ≤ 1) ∧
    (∀ d : Prob3, d.IsDist →
       -1 ≤ Ensemble.directionalScore d ∧ Ensemble.directionalScore d ≤ 1) :=
  ⟨fun _ => rfl,
   fun _ hd => EnsembleLite.lite_directionalScore_bounds hd,
   fun _ hd => Ensemble.directionalScore_bounds hd⟩

/-- Witness for C6's amended theorem at the distribution
`(0.3, 0.4, 0.3)`. -/
theorem C6_derived_score_witness :
    |EnsembleLite.directionalScore ⟨3 / 10, 2 / 5, 3 / 10⟩|
        ≤ 1 - (Prob3.mk (3 / 10) (2 / 5) (3 / 10)).p1 ∧
      -1 ≤ EnsembleLite.directionalScore ⟨3 / 10, 2 / 5, 3 / 10⟩ ∧
      EnsembleLite.directionalScore ⟨3 / 10, 2 / 5, 3 / 10⟩ ≤ 1 :=
  C6_derived_score.2.1 ⟨3 / 10, 2 / 5, 3 / 10⟩ (by
    constructor
    · norm_num
    constructor
    · norm_num
    constructor
    · norm_num
    · norm_num)

/-- C7 counterexample: the spec's partial-input scenario
`{price: 150, tech_score: 80}` against the real frozen schema of
`EnsembleModel`: the oscillator column `rsi` is a schema column, yet
`_create_feature_vector` fills it with `0`, not the documented neutral
`50`. -/
theorem C7_counterexample :
    ensembleSchema.any (fun c => strEq c "rsi") = true ∧
    Ensemble.featureEntry scenarioDict "rsi" = .ok 0 ∧
    ((0 : ℚ) ≠ 50) := by
  refine ⟨?_, ?_, by norm_num⟩
  · with_unfolding_all decide
  · with_unfolding_all rfl

/-- C7 (amended): predicting with only `{price: 150.0, tech_score: 80}`
does not raise and the demo confidence lies in `[0, 1]`, but the
missing-column defaults are model-specific rather than the claimed
uniform rules: `EnsembleModel` copies the supplied price into
`price_ma_*`/`price_lag_*` columns, recomputes only `pillar_composite`
(with per-pillar default 50, giving 57.5 here) and fills missing pillar,
oscillator and other derived columns with 0; `CryptoMLDemo` uses
name-pattern baselines (tech/social/fund → 35, astro → 50, rsi → 50,
volume → 23000000, any `price`-containing column → the supplied price)
but fills composite columns such as `pillar_mean` with 0 instead of
recomputing them, and `tech_social_product` inherits the raw tech score.
-/
theorem C7_partial_input_defaults :
    (Ensemble.featureEntry scenarioDict "price_ma_5" = .ok 150 ∧
     Ensemble.featureEntry scenarioDict "price_lag_12" = .ok 150 ∧
     Ensemble.featureEntry scenarioDict "price_returns" = .ok 0 ∧
     Ensemble.featureEntry scenarioDict "rsi" = .ok 0 ∧
     Ensemble.featureEntry scenarioDict "social_score" = .ok 0 ∧
     Ensemble.featureEntry scenarioDict "tech_score_ma_5" = .ok 80 ∧
     Ensemble.featureEntry scenarioDict "pillar_composite" = .ok (115 / 2)) ∧
    (MlDemo.featureEntry demoScenarioDict "rsi_approx" = 50 ∧
     MlDemo.featureEntry demoScenarioDict "social_score" = 35 ∧
     MlDemo.featureEntry demoScenarioDict "fund_score" = 35 ∧
     MlDemo.featureEntry demoScenarioDict "astro_score" = 50 ∧
     MlDemo.featureEntry demoScenarioDict "volume" = 23000000 ∧
     MlDemo.featureEntry demoScenarioDict "price_volatility" = 150 ∧
     MlDemo.featureEntry demoScenarioDict "tech_social_product" = 80 ∧
     MlDemo.featureEntry demoScenarioDict "pillar_mean" = 0) ∧
    (∀ (fit : MlDemo.DemoFits) (st : MlDemo.DemoState),
       (∀ x, 0 ≤ fit.metaP x ∧ fit.metaP x ≤ 1) →
       st.is_trained = true → st.models = some fit →
       (MlDemo.predict fit st demoScenarioDict).2.success = true ∧
       0 ≤ (MlDemo.predict fit st demoScenarioDict).2.confidence ∧
       (MlDemo.predict fit st demoScenarioDict).2.confidence ≤ 1) ∧
    (∀ (sqrtQ : ℚ → ℚ) (st : Ensemble.EnsembleState) (ph : Option (List ℚ))
       (rng : List ℚ), st.is_trained = true →
       ∃ q, Ensemble.predict_ensemble sqrtQ st scenarioDict ph rng
         = .ok q) := by
  refine ⟨?_, ?_, ?_, ?_⟩
  · refine ⟨?_, ?_, ?_, ?_, ?_, ?_, ?_⟩ <;> with_unfolding_all rfl
  · refine ⟨?_, ?_, ?_, ?_, ?_, ?_, ?_, ?_⟩ <;> with_unfolding_all rfl
  · intro fit st hmeta htr hmod
    unfold MlDemo.predict
    rw [htr]
    simp only [if_true, hmod]
    obtain ⟨hl, hr⟩ := hmeta (fit.xgbP
      (fit.scaler (MlDemo.featureVector st.feature_columns demoScenarioDict)),
      fit.rfP
      (fit.scaler (MlDemo.featureVector st.feature_columns demoScenarioDict)))
    refine ⟨by trivial, ?_, ?_⟩
    · positivity
    · have habs : |fit.metaP (fit.xgbP
          (fit.scaler (MlDemo.featureVector st.feature_columns demoScenarioDict)),
          fit.rfP
          (fit.scaler (MlDemo.featureVector st.feature_columns demoScenarioDict)))
            - 1 / 2| ≤ 1 / 2 := by
        rw [abs_le]
        constructor <;> linarith
      linarith [habs]
  · intro sqrtQ st ph rng h
    exact Ensemble.predict_trained_ok sqrtQ st scenarioDict ph rng h

/-- Witness for C7's amended theorem: the concrete trained demo instance
and the constant trained full snapshot. -/
theorem C7_partial_input_defaults_witness :
    ((MlDemo.predict constDemoFits demoTrainedState demoScenarioDict).2.success
        = true ∧
      0 ≤ (MlDemo.predict constDemoFits demoTrainedState
        demoScenarioDict).2.confidence ∧
      (MlDemo.predict constDemoFits demoTrainedState
        demoScenarioDict).2.confidence ≤ 1) ∧
    (∃ q, Ensemble.predict_ensemble sq0 stConst scenarioDict none []
      = .ok q) :=
  ⟨C7_partial_input_defaults.2.2.1 constDemoFits demoTrainedState
     (by intro x; constructor <;> norm_num [constDemoFits]) rfl rfl,
   C7_partial_input_defaults.2.2.2 sq0 stConst none [] rfl⟩

set_option maxRecDepth 4000 in
/-- C8 counterexample: `EnsembleLiteModel.train_ensemble` on a 10-row
input does not fail — it silently replaces the data with the 300-row
synthetic frame and reports success with `training_samples = 240`
(ensemble_lite.py 193-195). -/
theorem C8_counterexample :
    EnsembleLite.dfLen tenDf < 50 ∧
    EnsembleLite.selectTrainingData synth300 (some tenDf) = synth300 ∧
    synth300 ≠ tenDf ∧
    (EnsembleLite.train_ensemble synth300 constLiteFits
      EnsembleLite.initState (some tenDf)).2.success = true ∧
    (EnsembleLite.train_ensemble synth300 constLiteFits
      EnsembleLite.initState (some tenDf)).2.training_samples = 240 := by
  have h300 : EnsembleLite.dfLen synth300 = 300 := by
    with_unfolding_all decide
  have h10 : EnsembleLite.dfLen tenDf < 50 := by
    with_unfolding_all decide
  have hsel : EnsembleLite.selectTrainingData synth300 (some tenDf)
      = synth300 := by
    show (if EnsembleLite.dfLen tenDf < 50 then synth300 else tenDf)
      = synth300
    rw [if_pos h10]
  have hne : synth300 ≠ tenDf := by
    intro he
    have hth : EnsembleLite.dfLen synth300 = EnsembleLite.dfLen tenDf := by
      rw [he]
    have h10' : EnsembleLite.dfLen tenDf = 10 := by
      with_unfolding_all decide
    rw [h300, h10'] at hth
    exact absurd hth (by norm_num)
  refine ⟨h10, hsel, hne, rfl, ?_⟩
  show 4 * EnsembleLite.dfLen
    (EnsembleLite.selectTrainingData synth300 (some tenDf)) / 5 = 240
  rw [hsel, h300]

/-- C8 (amended): `EnsembleModel.prepare_training_data` fails with the
typed insufficiency error reporting the usable observation count when
fewer than 50 rows survive feature engineering (and that count never
exceeds the raw input length); `EnsembleLiteModel.train_ensemble`,
however, silently substitutes the 300-row synthetic frame for a short
input and always reports success. -/
theorem C8_insufficient_data_gate :
    (∀ (sqrtQ logQ : ℚ → ℚ) (df : InputDf),
       Ensemble.engineeredRowCount sqrtQ logQ df < 50 →
       Ensemble.prepare_training_data sqrtQ logQ df
         = .error (.insufficientData
             (Ensemble.engineeredRowCount sqrtQ logQ df))) ∧
    (∀ (sqrtQ logQ : ℚ → ℚ) (df : InputDf),
       Ensemble.engineeredRowCount sqrtQ logQ df ≤ df.price.length) ∧
    (∀ (synth : InputDf) (fits : EnsembleLite.LiteFits)
       (st : EnsembleLite.LiteState) (df : Option InputDf),
       (EnsembleLite.train_ensemble synth fits st df).2.success = true) :=
  ⟨Ensemble.prepare_training_data_insufficient,
   Ensemble.engineeredRowCount_le,
   fun _ _ _ _ => rfl⟩

/-- Witness for C8's amended theorem: the 10-row frame is rejected by the
full model's gate with its usable-row count. -/
theorem C8_insufficient_data_gate_witness :
    Ensemble.prepare_training_data sq0 lg0 tenDf
      = .error (.insufficientData (Ensemble.engineeredRowCount sq0 lg0 tenDf)) ∧
    Ensemble.engineeredRowCount sq0 lg0 tenDf ≤ tenDf.price.length :=
  ⟨C8_insufficient_data_gate.1 sq0 lg0 tenDf (by with_unfolding_all decide),
   C8_insufficient_data_gate.2.1 sq0 lg0 tenDf⟩

/-- C9 counterexample: on a flat price series both 14-row rolling
averages of `EnsembleModel._calculate_rsi` are exactly 0, and the
unguarded `gain / loss` ratio makes the RSI cell NaN — neither an epsilon
nor the neutral-50 default of the claim exists in this module. -/
theorem C9_counterexample :
    (Series.rollingMean 14
      (Series.whereGtZeroElseZero flat20.diff)).at' 13 = PVal.val 0 ∧
    (Series.rollingMean 14
      (Series.emap PVal.pneg
        (Series.whereLtZeroElseZero flat20.diff))).at' 13 = PVal.val 0 ∧
    (Ensemble.calculate_rsi flat20).at' 13 = PVal.nan ∧
    PVal.nan ≠ PVal.val 50 := by
  with_unfolding_all decide

/-- C9 (amended): `EnsembleModel._calculate_rsi` is unguarded — when both
rolling averages are zero the cell is NaN (no epsilon, no 50 default) —
but its cells are otherwise plain rationals in `[0, 100]` (a pure-gain
window collapses to 100, never ±Inf), and `dropna` removes every row
still holding a NaN in any engineered column before training;
`EnsembleLiteModel._calculate_rsi_simple` is epsilon-guarded (`1e-8`) and
its cells are always plain rationals in `[0, 100]`. -/
theorem C9_rsi_guard :
    (∀ prices : Series, (∀ x ∈ prices, ∃ q, x = PVal.val q) → ∀ i,
       (Ensemble.calculate_rsi prices).at' i = PVal.nan ∨
         ∃ q, (Ensemble.calculate_rsi prices).at' i = PVal.val q ∧
           0 ≤ q ∧ q ≤ 100) ∧
    (∀ (cols : List (String × Series)) (n i : ℕ),
       i ∈ Ensemble.survivingRows cols n →
       ∀ c ∈ cols, ((c.2).at' i).isNan = false) ∧
    (∀ prices : Series, (∀ x ∈ prices, ∃ q, x = PVal.val q) →
       ∀ i, i < prices.length →
       ∃ q, (EnsembleLite.calculate_rsi_simple prices).at' i = PVal.val q ∧
         0 ≤ q ∧ q ≤ 100) :=
  ⟨Ensemble.calculate_rsi_range,
   fun _ _ _ hi => Ensemble.surviving_row_nanFree hi,
   fun prices h _ hi => EnsembleLite.calculate_rsi_simple_range prices h hi⟩

/-- Witness for C9's amended theorem on the increasing price series. -/
theorem C9_rsi_guard_witness :
    ((Ensemble.calculate_rsi up20).at' 14 = PVal.nan ∨
      ∃ q, (Ensemble.calculate_rsi up20).at' 14 = PVal.val q ∧
        0 ≤ q ∧ q ≤ 100) ∧
    (∃ q, (EnsembleLite.calculate_rsi_simple up20).at' 14 = PVal.val q ∧
      0 ≤ q ∧ q ≤ 100) :=
  ⟨C9_rsi_guard.1 up20
     (by intro x hx
         obtain ⟨i, _, rfl⟩ := List.mem_map.1 hx
         exact ⟨_, rfl⟩) 14,
   C9_rsi_guard.2.2 up20
     (by intro x hx
         obtain ⟨i, _, rfl⟩ := List.mem_map.1 hx
         exact ⟨_, rfl⟩) 14 (by with_unfolding_all decide)⟩

/-- C10: the `is_trained` flag of each of the three ensemble classes is
monotone over the instance lifetime: it starts false, only a training run
that completes through meta-combiner fitting turns it true (for the demo,
`predict` on an untrained instance runs exactly such a training pass),
and no operation — predict, feature-importance query, or a later training
call that fails — ever resets it to false. -/
theorem C10_is_trained_monotone :
    (∀ k, (Ensemble.initState k).is_trained = false) ∧
    EnsembleLite.initState.is_trained = false ∧
    MlDemo.initState.is_trained = false ∧
    (∀ st op, st.is_trained = true →
       (Ensemble.lifecycleStep st op).is_trained = true) ∧
    (∀ st op, (Ensemble.lifecycleStep st op).is_trained = true →
       st.is_trained = true ∨ Ensemble.completesTraining op) ∧
    (∀ st op, st.is_trained = true →
       (EnsembleLite.lifecycleStep st op).is_trained = true) ∧
    (∀ st op, (EnsembleLite.lifecycleStep st op).is_trained = true →
       st.is_trained = true ∨ EnsembleLite.completesTraining op) ∧
    (∀ st op, st.is_trained = true →
       (MlDemo.lifecycleStep st op).is_trained = true) ∧
    (∀ st op, (MlDemo.lifecycleStep st op).is_trained = true →
       st.is_trained = true ∨ MlDemo.runsTraining st op) := by
  refine ⟨fun _ => rfl, rfl, rfl, ?_, ?_, ?_, ?_, ?_, ?_⟩
  · intro st op h
    cases op with
    | trainOp o =>
      cases o <;>
        simp_all [Ensemble.lifecycleStep, Ensemble.train_ensemble_step]
    | predictOp sqrtQ fs ph rng => exact h
    | importanceOp k => exact h
  · intro st op h
    cases op with
    | trainOp o =>
      cases o with
      | prepFailed e => exact Or.inl h
      | fitFailed cols => exact Or.inl h
      | completed f =>
        exact Or.inr trivial
    | predictOp sqrtQ fs ph rng => exact Or.inl h
    | importanceOp k => exact Or.inl h
  · intro st op h
    cases op with
    | trainOp o =>
      cases o <;>
        simp_all [EnsembleLite.lifecycleStep, EnsembleLite.train_ensemble]
    | predictOp fs => exact h
    | importanceOp k => exact h
  · intro st op h
    cases op with
    | trainOp o =>
      cases o with
      | fitFailed => exact Or.inl h
      | completed synth df f => exact Or.inr trivial
    | predictOp fs => exact Or.inl h
    | importanceOp k => exact Or.inl h
  · intro st op h
    cases op with
    | trainOp f => rfl
    | predictOp f fs =>
      cases hm : st.models <;>
        simp_all [MlDemo.lifecycleStep, MlDemo.predict, MlDemo.train_ensemble]
    | importanceOp => exact h
  · intro st op h
    cases op with
    | trainOp f => exact Or.inr trivial
    | predictOp f fs =>
      cases hst : st.is_trained with
      | true => exact Or.inl rfl
      | false => exact Or.inr hst
    | importanceOp => exact Or.inl h

/-- Witness for C10 at concrete states and operations. -/
theorem C10_is_trained_monotone_witness :
    (Ensemble.lifecycleStep stConst (Ensemble.MLOp.importanceOp 10)).is_trained
      = true ∧
    (MlDemo.lifecycleStep demoTrainedState
      (MlDemo.DemoOp.predictOp constDemoFits demoScenarioDict)).is_trained
      = true :=
  ⟨C10_is_trained_monotone.2.2.2.1 stConst (Ensemble.MLOp.importanceOp 10) rfl,
   C10_is_trained_monotone.2.2.2.2.2.2.2.1 demoTrainedState
     (MlDemo.DemoOp.predictOp constDemoFits demoScenarioDict) rfl⟩
